import Mathlib

/-!
Verification of the IFit-club driver application's location and ride-lifecycle
engine.  The definitions below are shallow embeddings of the TypeScript source:

* `src/utils/LocationUtils.ts` — GPS sample validation, smoothing and the
  stateful `LocationTracker`;
* `RouteService.ts` — route geometry (nearest point, split, simplification);
* `src/socket.ts` — the socket.io connection options;
* `src/Screen1.tsx` — the ride lifecycle handlers (`acceptRide`, `confirmOTP`,
  `proceedWithTripStartSafe`, `completeRide`/`submitRideCompletion`,
  `handleRideCancelled`).

JavaScript numbers are modelled as real numbers (`ℝ`); `null`/`undefined`
optional values as `Option`; the JavaScript value `Infinity` that can be
carried by a nearest-point distance as the top element of `EReal`.
-/

open scoped Classical

namespace IFitClub

/-- Model of JavaScript `Math.atan2 y x` (range `(-π, π]`, `atan2 0 0 = 0`). -/
noncomputable def atan2 (y x : ℝ) : ℝ :=
  if 0 < x then Real.arctan (y / x)
  else if x < 0 then
    (if 0 ≤ y then Real.arctan (y / x) + Real.pi else Real.arctan (y / x) - Real.pi)
  else
    (if 0 < y then Real.pi / 2 else if y < 0 then -(Real.pi / 2) else 0)

/-- `calculateDistance` from `src/utils/LocationUtils.ts` (lines 24–34):
haversine distance in metres between `(lat1, lon1)` and `(lat2, lon2)`,
Earth radius 6 371 000 m. -/
noncomputable def calculateDistance (lat1 lon1 lat2 lon2 : ℝ) : ℝ :=
  let R : ℝ := 6371000
  let dLat := (lat2 - lat1) * Real.pi / 180
  let dLon := (lon2 - lon1) * Real.pi / 180
  let a :=
    Real.sin (dLat / 2) * Real.sin (dLat / 2) +
      Real.cos (lat1 * Real.pi / 180) * Real.cos (lat2 * Real.pi / 180) *
        Real.sin (dLon / 2) * Real.sin (dLon / 2)
  let c := 2 * atan2 (Real.sqrt a) (Real.sqrt (1 - a))
  R * c

/-- A coordinate pair, the `LatLng` interface of `RouteService.ts`. -/
structure LatLng where
  latitude : ℝ
  longitude : ℝ

instance : Inhabited LatLng := ⟨⟨0, 0⟩⟩

/-- `getDistanceInMeters` from `RouteService.ts` (lines 38–53): the same
haversine formula, with the two radian conversions of the latitudes bound to
locals before the `Math.cos` calls. -/
noncomputable def getDistanceInMeters (a b : LatLng) : ℝ :=
  let R : ℝ := 6371000
  let dLat := (b.latitude - a.latitude) * Real.pi / 180
  let dLon := (b.longitude - a.longitude) * Real.pi / 180
  let lat1 := a.latitude * Real.pi / 180
  let lat2 := b.latitude * Real.pi / 180
  let h :=
    Real.sin (dLat / 2) * Real.sin (dLat / 2) +
      Real.cos lat1 * Real.cos lat2 * (Real.sin (dLon / 2) * Real.sin (dLon / 2))
  let c := 2 * atan2 (Real.sqrt h) (Real.sqrt (1 - h))
  R * c

lemma arctan_nonneg_of_nonneg {t : ℝ} (h : 0 ≤ t) : 0 ≤ Real.arctan t := by
  have h2 := Real.arctan_strictMono.monotone h
  rwa [Real.arctan_zero] at h2

lemma atan2_nonneg {y x : ℝ} (hy : 0 ≤ y) : 0 ≤ atan2 y x := by
  unfold atan2
  by_cases hx : 0 < x
  · rw [if_pos hx]
    exact arctan_nonneg_of_nonneg (div_nonneg hy hx.le)
  · rw [if_neg hx]
    by_cases hx2 : x < 0
    · rw [if_pos hx2, if_pos hy]
      have h1 := Real.neg_pi_div_two_lt_arctan (y / x)
      have hpi := Real.pi_pos
      linarith
    · rw [if_neg hx2]
      by_cases hy2 : 0 < y
      · rw [if_pos hy2]
        have := Real.pi_pos
        linarith
      · rw [if_neg hy2, if_neg (not_lt.mpr hy)]

lemma atan2_zero_of_pos {x : ℝ} (hx : 0 < x) : atan2 0 x = 0 := by
  unfold atan2
  rw [if_pos hx, zero_div, Real.arctan_zero]

lemma hav_shell_nonneg (R a : ℝ) (hR : 0 ≤ R) :
    0 ≤ R * (2 * atan2 (Real.sqrt a) (Real.sqrt (1 - a))) := by
  have h := atan2_nonneg (x := Real.sqrt (1 - a)) (Real.sqrt_nonneg a)
  have h2 : (0 : ℝ) ≤ 2 * atan2 (Real.sqrt a) (Real.sqrt (1 - a)) := by linarith
  exact mul_nonneg hR h2

lemma calculateDistance_nonneg (lat1 lon1 lat2 lon2 : ℝ) :
    0 ≤ calculateDistance lat1 lon1 lat2 lon2 := by
  unfold calculateDistance
  exact hav_shell_nonneg _ _ (by norm_num)

lemma calculateDistance_self (lat lon : ℝ) : calculateDistance lat lon lat lon = 0 := by
  unfold calculateDistance
  simp only [sub_self, zero_mul, zero_div, Real.sin_zero, mul_zero, zero_add,
    add_zero, Real.sqrt_zero, sub_zero, Real.sqrt_one]
  rw [atan2_zero_of_pos one_pos]
  ring

lemma getDistanceInMeters_eq (a b : LatLng) :
    getDistanceInMeters a b =
      calculateDistance a.latitude a.longitude b.latitude b.longitude := by
  unfold getDistanceInMeters calculateDistance
  ring_nf

lemma getDistanceInMeters_nonneg (a b : LatLng) : 0 ≤ getDistanceInMeters a b := by
  rw [getDistanceInMeters_eq]; exact calculateDistance_nonneg _ _ _ _

lemma getDistanceInMeters_self (a : LatLng) : getDistanceInMeters a a = 0 := by
  rw [getDistanceInMeters_eq]; exact calculateDistance_self _ _

/-! ## `LocationTracker` (`src/utils/LocationUtils.ts`) -/

/-- The `LocationPoint` interface: `accuracy` is optional (`accuracy?: number`). -/
structure LocationPoint where
  latitude : ℝ
  longitude : ℝ
  timestamp : ℝ
  accuracy : Option ℝ

/-- The `TrackingResult` interface returned by `processLocation`. -/
structure TrackingResult where
  distance : ℝ
  totalDistance : ℝ
  totalDistanceKm : ℝ
  latitude : ℝ
  longitude : ℝ

/-- The mutable fields of the `LocationTracker` class. -/
structure LocationTracker where
  lastValidLocation : Option LocationPoint
  totalDistance : ℝ
  locationBuffer : List LocationPoint

/-- `minDistanceThreshold`: movements below 5 m are ignored as GPS jitter. -/
def minDistanceThreshold : ℝ := 5

/-- `maxSpeedThreshold`: speeds above 50 m/s are rejected as GPS glitches. -/
def maxSpeedThreshold : ℝ := 50

/-- `maxAccuracyThreshold`: fixes with accuracy worse than 40 m are rejected. -/
def maxAccuracyThreshold : ℝ := 40

/-- `smoothingBufferSize`: ring buffer of the 3 most recent fixes. -/
def smoothingBufferSize : ℕ := 3

/-- `isValidLocation` rejects `null`/`undefined`/`NaN` coordinates; none of
these JavaScript values exists in the real-number embedding, so on `ℝ` inputs
the check always passes. -/
def isValidLocation (_lat _lng : ℝ) : Bool := true

/-- The buffer mutation in `processLocation` step 3: `push` the new fix, then
`shift()` (drop the oldest entry) when the buffer has grown past
`smoothingBufferSize`. -/
def pushBuffer (buf : List LocationPoint) (p : LocationPoint) : List LocationPoint :=
  let b := buf ++ [p]
  if smoothingBufferSize < b.length then b.tail else b

/-- Smoothed latitude: mean of the buffered latitudes (the buffer is always
non-empty at this point, but the source keeps `newLat` as the default). -/
noncomputable def smoothedLat (buf : List LocationPoint) (newLat : ℝ) : ℝ :=
  if 0 < buf.length then (buf.map (·.latitude)).sum / buf.length else newLat

/-- Smoothed longitude: mean of the buffered longitudes. -/
noncomputable def smoothedLng (buf : List LocationPoint) (newLng : ℝ) : ℝ :=
  if 0 < buf.length then (buf.map (·.longitude)).sum / buf.length else newLng

/-- Does the optional accuracy value fail the accuracy gate?  Mirrors
`accuracy !== undefined && accuracy !== null && accuracy > this.maxAccuracyThreshold`. -/
def accuracyRejected (accuracy : Option ℝ) : Prop :=
  match accuracy with
  | some a => maxAccuracyThreshold < a
  | none => False

noncomputable instance (accuracy : Option ℝ) : Decidable (accuracyRejected accuracy) := by
  unfold accuracyRejected
  cases accuracy with
  | none => exact instDecidableFalse
  | some a => exact Classical.propDecidable _

/-- `LocationTracker.processLocation(newLat, newLng, timestamp, accuracy)`,
returning the optional `TrackingResult` (`null` = rejection) together with the
tracker state after the call.  Note that the smoothing-buffer push (step 3)
happens *before* the jitter and speed filters, so those two rejections still
leave the new fix in the buffer. -/
noncomputable def processLocation (t : LocationTracker) (newLat newLng timestamp : ℝ)
    (accuracy : Option ℝ) : Option TrackingResult × LocationTracker :=
  if ¬ isValidLocation newLat newLng then (none, t)
  else if accuracyRejected accuracy then (none, t)
  else
    let buf := pushBuffer t.locationBuffer ⟨newLat, newLng, timestamp, accuracy⟩
    let sLat := smoothedLat buf newLat
    let sLng := smoothedLng buf newLng
    match t.lastValidLocation with
    | none =>
        (some ⟨0, t.totalDistance, t.totalDistance / 1000, sLat, sLng⟩,
         { t with lastValidLocation := some ⟨sLat, sLng, timestamp, accuracy⟩,
                  locationBuffer := buf })
    | some prev =>
        let distance := calculateDistance prev.latitude prev.longitude sLat sLng
        let timeDiff := (timestamp - prev.timestamp) / 1000
        let speed := if 0 < timeDiff then distance / timeDiff else 0
        if distance < minDistanceThreshold then (none, { t with locationBuffer := buf })
        else if maxSpeedThreshold < speed then (none, { t with locationBuffer := buf })
        else
          (some ⟨distance, t.totalDistance + distance, (t.totalDistance + distance) / 1000,
                 sLat, sLng⟩,
           { lastValidLocation := some ⟨sLat, sLng, timestamp, accuracy⟩,
             totalDistance := t.totalDistance + distance,
             locationBuffer := buf })

/-- `LocationTracker.reset()`. -/
def resetTracker (_t : LocationTracker) : LocationTracker :=
  { lastValidLocation := none, totalDistance := 0, locationBuffer := [] }

/-- `LocationTracker.getCurrentDistance()`. -/
def getCurrentDistance (t : LocationTracker) : ℝ := t.totalDistance

/-! ## Route geometry (`RouteService.ts`) -/

/-- Result of `findNearestPointOnRoute`, `{index, distance}`.  The distance is
an extended real because the source initialises it to `Infinity`, which is
returned unchanged for an empty route (or an empty search window). -/
structure NearestPoint where
  index : ℕ
  distance : EReal

/-- One linear scan of `findNearestPointOnRoute`: fold the loop body
`if (distance < minDistance) { minDistance = distance; nearestIndex = i; }`
over the index window `[lo, hi)`. -/
noncomputable def scanNearest (driverLocation : LatLng) (route : List LatLng)
    (lo hi : ℕ) (best : NearestPoint) : NearestPoint :=
  (List.range' lo (hi - lo)).foldl
    (fun b i =>
      let d : EReal := (getDistanceInMeters driverLocation (route.getD i default) : ℝ)
      if d < b.distance then ⟨i, d⟩ else b)
    best

/-- `findNearestPointOnRoute(driverLocation, route, lastKnownIndex = 0,
searchRadius = 100)` from `RouteService.ts` (lines 154–191).  The window is
`[max 0 (lastKnownIndex - 5), min route.length (lastKnownIndex + searchRadius))`
(natural-number subtraction is the `Math.max(0, ·)`); if the window's best
match sits at its forward edge and route points remain, the scan continues to
the end of the route. -/
noncomputable def findNearestPointOnRoute (driverLocation : LatLng) (route : List LatLng)
    (lastKnownIndex : ℕ := 0) (searchRadius : ℕ := 100) : NearestPoint :=
  if route.length = 0 then ⟨0, ⊤⟩
  else
    let searchStart := lastKnownIndex - 5
    let searchEnd := min route.length (lastKnownIndex + searchRadius)
    let best := scanNearest driverLocation route searchStart searchEnd ⟨lastKnownIndex, ⊤⟩
    if searchEnd - 1 ≤ best.index ∧ searchEnd < route.length then
      scanNearest driverLocation route searchEnd route.length best
    else best

/-- `projectPointOnSegment` (lines 221–247): clamped orthogonal projection of
`point` onto the segment `[segStart, segEnd]`, computed in raw coordinate
space. -/
noncomputable def projectPointOnSegment (point segStart segEnd : LatLng) : LatLng :=
  let dx := segEnd.longitude - segStart.longitude
  let dy := segEnd.latitude - segStart.latitude
  if dx = 0 ∧ dy = 0 then segStart
  else
    let t := max 0 (min 1
      (((point.longitude - segStart.longitude) * dx +
          (point.latitude - segStart.latitude) * dy) / (dx * dx + dy * dy)))
    ⟨segStart.latitude + t * dy, segStart.longitude + t * dx⟩

/-- `getInterpolatedDriverPosition` (lines 252–267): the projection of the
driver onto the segment following `nearestIndex`; degenerate inputs return the
driver location unchanged. -/
noncomputable def getInterpolatedDriverPosition (driverLocation : LatLng)
    (route : List LatLng) (nearestIndex : ℕ) : LatLng :=
  if route.length < 2 ∨ route.length ≤ nearestIndex then driverLocation
  else
    projectPointOnSegment driverLocation (route.getD nearestIndex default)
      (route.getD (min (route.length - 1) (nearestIndex + 1)) default)

/-- The `RouteSegments` record returned by `splitRouteAtDriver`. -/
structure RouteSegments where
  travelled : List LatLng
  remaining : List LatLng
  progress : ℝ
  nearestIndex : ℕ
  distanceToRoute : EReal

/-- `splitRouteAtDriver(driverLocation, fullRoute, lastNearestIndex = 0)`
(lines 273–323): splits the route at the interpolated driver position;
`travelled` is `slice(0, nearestIndex + 1)` plus the interpolated point,
`remaining` is the interpolated point plus `slice(nearestIndex + 1)`. -/
noncomputable def splitRouteAtDriver (driverLocation : LatLng) (fullRoute : List LatLng)
    (lastNearestIndex : ℕ := 0) : RouteSegments :=
  if fullRoute.length < 2 then
    { travelled := [], remaining := fullRoute, progress := 0, nearestIndex := 0,
      distanceToRoute := 0 }
  else
    let np := findNearestPointOnRoute driverLocation fullRoute lastNearestIndex
    let interpolatedPosition := getInterpolatedDriverPosition driverLocation fullRoute np.index
    let travelled := fullRoute.take (np.index + 1) ++ [interpolatedPosition]
    let remaining := interpolatedPosition :: fullRoute.drop (np.index + 1)
    let progress := (np.index : ℝ) / ((fullRoute.length : ℝ) - 1) * 100
    { travelled := travelled, remaining := remaining,
      progress := min 100 (max 0 progress), nearestIndex := np.index,
      distanceToRoute := np.distance }

/-- `perpendicularDistance` (lines 412–435): haversine distance from `point`
to its *unclamped* projection onto the line through `lineStart`/`lineEnd`. -/
noncomputable def perpendicularDistance (point lineStart lineEnd : LatLng) : ℝ :=
  let dx := lineEnd.longitude - lineStart.longitude
  let dy := lineEnd.latitude - lineStart.latitude
  if dx = 0 ∧ dy = 0 then getDistanceInMeters point lineStart
  else
    let t := ((point.longitude - lineStart.longitude) * dx +
        (point.latitude - lineStart.latitude) * dy) / (dx * dx + dy * dy)
    getDistanceInMeters point
      ⟨lineStart.latitude + t * dy, lineStart.longitude + t * dx⟩

/-- The maximum-distance search loop of `simplifyRoute`
(`for i = 1; i < route.length - 1; i++`), returning
`(maxDistance, maxIndex)` with initial value `(0, 0)`. -/
noncomputable def maxPerpendicular (route : List LatLng) : ℝ × ℕ :=
  (List.range' 1 (route.length - 2)).foldl
    (fun best i =>
      let d := perpendicularDistance (route.getD i default) (route.getD 0 default)
        (route.getD (route.length - 1) default)
      if best.1 < d then (d, i) else best)
    (0, 0)

/-- Fuel-indexed body of `simplifyRoute` (Douglas–Peucker, lines 441–468).
The source recursion is on `route.slice(0, maxIndex + 1)` and
`route.slice(maxIndex)`; for a positive tolerance the recursive branch forces
`1 ≤ maxIndex ≤ route.length - 2`, so both slices are strictly shorter than
`route` and a fuel of `route.length` is enough for the fuel never to run out. -/
noncomputable def simplifyRouteAux : ℕ → List LatLng → ℝ → List LatLng
  | 0, route, _ => route
  | fuel + 1, route, tolerance =>
    if route.length ≤ 2 then route
    else
      let m := maxPerpendicular route
      if tolerance < m.1 then
        (simplifyRouteAux fuel (route.take (m.2 + 1)) tolerance).dropLast ++
          simplifyRouteAux fuel (route.drop m.2) tolerance
      else [route.getD 0 default, route.getD (route.length - 1) default]

/-- `simplifyRoute(route, tolerance = 0.00005)`. -/
noncomputable def simplifyRoute (route : List LatLng) (tolerance : ℝ := 0.00005) :
    List LatLng :=
  simplifyRouteAux route.length route tolerance

/-! ## Ride lifecycle (`src/Screen1.tsx`) -/

/-- The `rideStatus` string union of `Screen1.tsx`
(`"idle" | "onTheWay" | "accepted" | "started" | "completed"`). -/
inductive RideStatus
  | idle
  | onTheWay
  | accepted
  | started
  | completed
deriving DecidableEq

/-- The `driverStatus` string union (`"offline" | "online" | "onRide"`). -/
inductive DriverStatus
  | offline
  | online
  | onRide
deriving DecidableEq

/-- The fields of the `RideType` record that the embedded handlers read. -/
structure Ride where
  rideId : String
  otp : String
  userName : String
  userMobile : String
  pickup : LatLng
  drop : LatLng
  fare : ℝ

/-- The `UserDataType` passenger record. -/
structure PassengerData where
  name : String
  mobile : String
  userId : String
  location : LatLng
  rating : ℝ

/-- `fetchPassengerData(rideData)` (lines 489–500), including the
falsy-string fallbacks. -/
def fetchPassengerData (r : Ride) : PassengerData :=
  { name := if r.userName = "" then "Passenger" else r.userName
    mobile := if r.userMobile = "" then "N/A" else r.userMobile
    userId := r.rideId
    location := r.pickup
    rating := 4.8 }

/-- Is an optional string falsy in the JavaScript sense
(`undefined`, `null` or `""`)? -/
def strFalsy (s : Option String) : Bool :=
  match s with
  | none => true
  | some v => v = ""

/-- JavaScript `a || b` on optional strings. -/
def strOr (a b : Option String) : Option String :=
  if strFalsy a then b else a

/-- The bill record assembled by `submitRideCompletion` (and `handleBillAlert`)
exclusively from the backend response values. -/
structure BillDetails where
  distanceKm : ℝ
  travelTimeMin : ℤ
  charge : ℝ
  baseFare : ℝ
  timeCharge : ℝ
  tax : ℝ
  pricePerKm : ℝ
  driverShare : Option ℝ
  companyShare : Option ℝ

/-- The `result.data` payload of `POST /rides/complete-with-calculation`:
the backend's authoritative distance/fare computation. -/
structure ServerCalc where
  distance : ℝ
  fare : ℝ
  pricePerKm : ℝ
  driverShare : Option ℝ
  companyShare : Option ℝ

/-- The `billData` literal of `submitRideCompletion` (lines 3247–3262): every
monetary/distance figure is copied from the backend's `result.data`; the only
locally derived number is the display-only travel-time estimate
`Math.round(serverDistance * 3)`. -/
noncomputable def billDataOf (result : ServerCalc) : BillDetails :=
  { distanceKm := result.distance
    travelTimeMin := round (result.distance * 3)
    charge := result.fare
    baseFare := result.fare
    timeCharge := 0
    tax := 0
    pricePerKm := result.pricePerKm
    driverShare := result.driverShare
    companyShare := result.companyShare }

/-- The component state of `Screen1.tsx` touched by the embedded handlers.
`hasOtpMatch` is a history marker set exactly when `confirmOTP`'s local
comparison `enteredOtp === ride.otp` succeeds, and never cleared;
`completionPending` marks an outstanding `submitRideCompletion` whose
failure alert (Retry/Cancel) may still fire.  Neither exists as a source
variable; they only record trace history for the temporal proofs. -/
structure ScreenState where
  driverId : Option String
  socketConnected : Bool
  driverStatus : DriverStatus
  ride : Option Ride
  rideStatus : RideStatus
  userData : Option PassengerData
  acceptButtonDisabled : Bool
  isAccepting : Bool
  pendingAcceptRideId : Option String
  isLoading : Bool
  enteredOtp : String
  otpModalVisible : Bool
  otpVerifying : Bool
  otpVerified : Bool
  location : Option LatLng
  lastCoord : Option LatLng
  tripStartLocation : Option LatLng
  otpVerificationLocation : Option LatLng
  lastLocationBeforeOtp : Option LatLng
  distanceSinceOtp : ℝ
  travelledKm : ℝ
  locationHistory : List LatLng
  liveTripDistance : ℝ
  fullRouteCoords : List LatLng
  visibleRouteCoords : List LatLng
  travelledRoute : List LatLng
  remainingRoute : List LatLng
  nearestPointIndex : ℕ
  userLocation : Option LatLng
  riderDetailsVisible : Bool
  showBillModal : Bool
  billDetails : Option BillDetails
  hasOtpMatch : Bool
  completionPending : Bool

/-- `clearMapData()` (lines 2660–2683). -/
def clearMapData (s : ScreenState) : ScreenState :=
  { s with fullRouteCoords := [], visibleRouteCoords := [], travelledRoute := [],
           remainingRoute := [], nearestPointIndex := 0, userLocation := none,
           travelledKm := 0, lastCoord := none, distanceSinceOtp := 0,
           lastLocationBeforeOtp := none, otpVerificationLocation := none }

/-- `hideRiderDetails()` (lines 546–561); the animation callback ends by
clearing `riderDetailsVisible`. -/
def hideRiderDetails (s : ScreenState) : ScreenState :=
  { s with riderDetailsVisible := false }

/-- How the synchronous part of `acceptRide(rideId?)` (lines 2275–2341) ends:
either one of the early returns, or a scheduled retry after reconnection, or
the single `socket.emit("acceptRide", …)`. -/
inductive AcceptAttempt
  | noRideId
  | notRegistered
  | duplicate
  | reconnectScheduled (rideId : String)
  | requestEmitted (rideId : String)
deriving DecidableEq

/-- The synchronous phase of `acceptRide(rideId?)`: guards in source order
(`!currentRideId`, `!driverId`, the `acceptButtonDisabled || isAccepting`
double-tap lock, the socket-connectivity check), then lock acquisition,
passenger-data backfill and the `acceptRide` emit. -/
def acceptRideCall (s : ScreenState) (rideId : Option String) :
    AcceptAttempt × ScreenState :=
  let currentRideId := strOr rideId (s.ride.map (·.rideId))
  match currentRideId with
  | none => (.noRideId, s)
  | some rid =>
    if rid = "" then (.noRideId, s)
    else if strFalsy s.driverId then (.notRegistered, s)
    else if s.acceptButtonDisabled || s.isAccepting then (.duplicate, s)
    else
      let s1 := { s with acceptButtonDisabled := true, isAccepting := true,
                         pendingAcceptRideId := some rid }
      if ¬ s.socketConnected then (.reconnectScheduled rid, s1)
      else
        let s2 := { s1 with isLoading := true }
        let s3 :=
          match s2.ride, s2.userData with
          | some r, none =>
              { s2 with userData := some (fetchPassengerData r),
                        riderDetailsVisible := true }
          | _, _ => s2
        (.requestEmitted rid, s3)

/-- The shape of the `acceptRide` acknowledgement payload. -/
inductive AcceptResponse
  | success
  | rideCancelled
  | alreadyAccepted
  | failure
deriving DecidableEq

/-- The `acceptRide` emit callback (lines 2343–2496): always clears
`isLoading`, `isAccepting` and `pendingAcceptRideId`; each branch re-enables
the accept button; the success branch moves to `accepted`, the
cancelled/taken branches clean up to `idle`, the generic failure branch only
resets the status. -/
def acceptRideResolve (s : ScreenState) (resp : AcceptResponse) (isMounted : Bool) :
    ScreenState :=
  let s1 := { s with isLoading := false, isAccepting := false,
                     pendingAcceptRideId := none }
  if ¬ isMounted then { s1 with acceptButtonDisabled := false }
  else
    match resp with
    | .success =>
        let s2 := { s1 with rideStatus := .accepted, driverStatus := .onRide,
                            otpVerified := false, locationHistory := [],
                            liveTripDistance := 0 }
        let s3 :=
          match s2.userData, s2.ride with
          | none, some r => { s2 with userData := some (fetchPassengerData r) }
          | _, _ => s2
        { s3 with userLocation := s3.ride.map (·.pickup),
                  riderDetailsVisible := true, acceptButtonDisabled := false }
    | .rideCancelled =>
        clearMapData (hideRiderDetails
          { s1 with ride := none, rideStatus := .idle, driverStatus := .online,
                    acceptButtonDisabled := false })
    | .alreadyAccepted =>
        clearMapData (hideRiderDetails
          { s1 with ride := none, rideStatus := .idle, driverStatus := .online,
                    acceptButtonDisabled := false })
    | .failure =>
        { s1 with rideStatus := .idle, driverStatus := .online,
                  acceptButtonDisabled := false }

/-- How `confirmOTP()` (lines 2722–2782) ends. -/
inductive OtpOutcome
  | noRide
  | otpMissing
  | badLength
  | alreadyVerifying
  | noLocation
  | mismatch
  | tripStarted
deriving DecidableEq

/-- `proceedWithTripStartSafe(startPoint)` (lines 2785–2863): commits the
transition to `started` and initialises the trip-tracking state. -/
def proceedWithTripStartSafe (s : ScreenState) (startPoint : LatLng) : ScreenState :=
  { s with otpVerified := true, otpVerifying := false, rideStatus := .started,
           travelledKm := 0, distanceSinceOtp := 0,
           lastLocationBeforeOtp := some startPoint,
           otpVerificationLocation := some startPoint,
           tripStartLocation := some startPoint,
           locationHistory := [startPoint], liveTripDistance := 0,
           travelledRoute := [], remainingRoute := [],
           riderDetailsVisible := true }

/-- `confirmOTP()` (lines 2722–2782): guards in source order (`!ride`,
`!ride.otp`, `enteredOtp.length !== 4`, `otpVerifying`, missing start point),
then the local comparison `enteredOtp !== ride.otp`; a mismatch clears the
input and reports a recoverable alert; a match closes the modal and runs
`proceedWithTripStartSafe` (deferred 100 ms in the source, applied
sequentially here).  The history marker `hasOtpMatch` is set exactly on the
successful comparison. -/
def confirmOTP (s : ScreenState) : OtpOutcome × ScreenState :=
  match s.ride with
  | none => (.noRide, s)
  | some r =>
    if r.otp = "" then (.otpMissing, s)
    else if s.enteredOtp.length ≠ 4 then (.badLength, s)
    else if s.otpVerifying then (.alreadyVerifying, s)
    else
      match s.location.orElse (fun _ => s.lastCoord) with
      | none => (.noLocation, s)
      | some startPoint =>
        if s.enteredOtp ≠ r.otp then (.mismatch, { s with enteredOtp := "" })
        else
          let s1 := { s with otpVerifying := true, otpModalVisible := false,
                             enteredOtp := "", hasOtpMatch := true }
          (.tripStarted, proceedWithTripStartSafe s1 startPoint)

/-- How `completeRide()` (lines 3117–3174) ends ahead of the confirmation
dialog. -/
inductive CompleteOutcome
  | notStarted
  | noRide
  | noLocation
  | readyToSubmit (finalLat finalLng : ℝ)

/-- The guard phase of `completeRide()`: requires status `started`, an active
ride and a current GPS location, then hands `{lat, lng}` to the confirmation
dialog. -/
def completeRide (s : ScreenState) : CompleteOutcome :=
  if s.rideStatus ≠ .started then .notStarted
  else
    match s.ride with
    | none => .noRide
    | some _ =>
      match s.location with
      | none => .noLocation
      | some loc => .readyToSubmit loc.latitude loc.longitude

/-- The synchronous part of `submitRideCompletion` (lines 3177–3193): the
status flips to `completed` immediately, before any network round-trip, to
prevent double submission; the pending marker records the outstanding
request. -/
def submitRideCompletion (s : ScreenState) : ScreenState :=
  { s with rideStatus := .completed, driverStatus := .online,
           completionPending := true }

/-- The success continuation of `submitRideCompletion` (lines 3234–3275):
hide the rider sheet, clear the map and show the bill assembled from the
backend result. -/
noncomputable def completionSucceeded (s : ScreenState) (result : ServerCalc) :
    ScreenState :=
  let s1 := clearMapData (hideRiderDetails s)
  { s1 with billDetails := some (billDataOf result), showBillModal := true,
            completionPending := false }

/-- The `Cancel` button of the completion-failure alert (lines 3289–3297):
reverts the optimistic `completed` status back to `started`. -/
def completionFailedCancel (s : ScreenState) : ScreenState :=
  { s with rideStatus := .started, driverStatus := .onRide,
           completionPending := false }

/-- `handleRideCancelled(data)` (lines 3763–3796): acts only when the carried
`rideId` equals the active ride's id; a pending (`onTheWay`) request keeps its
alert visible; otherwise stop navigation, notify, clean the map and reset to
`idle`. -/
def handleRideCancelled (s : ScreenState) (dataRideId : String) : ScreenState :=
  match s.ride with
  | none => s
  | some r =>
    if r.rideId = dataRideId then
      if s.rideStatus = .onTheWay then s
      else
        hideRiderDetails (clearMapData
          { s with ride := none, userData := none, rideStatus := .idle,
                   driverStatus := .online })
    else s

/-- `handleRideAlreadyAccepted(data)` (lines 3798–3812). -/
def handleRideAlreadyAccepted (s : ScreenState) (dataRideId : String) : ScreenState :=
  match s.ride with
  | none => s
  | some r =>
    if r.rideId = dataRideId then
      hideRiderDetails (clearMapData
        { s with ride := none, userData := none, rideStatus := .idle,
                 driverStatus := .online })
    else s

/-- `handleBillAlert(data)` (lines 3881–3937): on a matching `rideId`, show
the backend bill and move to `completed`. -/
noncomputable def handleBillAlert (s : ScreenState) (dataRideId : String)
    (serverCalc : ServerCalc) : ScreenState :=
  match s.ride with
  | none => s
  | some r =>
    if r.rideId = dataRideId then
      clearMapData (hideRiderDetails
        { s with billDetails := some (billDataOf serverCalc), showBillModal := true,
                 rideStatus := .completed, driverStatus := .online })
    else s

/-- `handleBillModalClose` (lines 3310–3348): full reset back to `idle`. -/
def handleBillModalClose (s : ScreenState) : ScreenState :=
  hideRiderDetails (clearMapData
    { s with ride := none, userData := none, otpVerificationLocation := none,
             rideStatus := .idle, driverStatus := .online, otpVerified := false,
             otpVerifying := false, tripStartLocation := none,
             locationHistory := [], liveTripDistance := 0,
             acceptButtonDisabled := false, distanceSinceOtp := 0,
             lastLocationBeforeOtp := none, travelledKm := 0, lastCoord := none,
             showBillModal := false })

/-- A new ride offer (`newRideRequest`, lines 3445–3486): store the ride and
passenger data and show the request (`onTheWay`). -/
def handleNewRideOffer (s : ScreenState) (r : Ride) : ScreenState :=
  { s with ride := some r, rideStatus := .onTheWay,
           userData := some (fetchPassengerData r), riderDetailsVisible := true }

/-- The session-level events that drive the embedded `Screen1.tsx` handlers.
`completeRideConfirmed` is `completeRide()` followed by the driver pressing
`Complete` in the confirmation dialog; `completionOk` / `completionRetry` /
`completionCancel` are the asynchronous outcomes of an outstanding
`submitRideCompletion` request. -/
inductive ScreenEvent
  | acceptTap (rideId : Option String)
  | acceptResolved (resp : AcceptResponse) (isMounted : Bool)
  | typeOtp (code : String)
  | confirmOtpTap
  | completeRideConfirmed
  | completionOk (result : ServerCalc)
  | completionRetry
  | completionCancel
  | rideCancelledMsg (rideId : String)
  | rideAlreadyAcceptedMsg (rideId : String)
  | billAlertMsg (rideId : String) (result : ServerCalc)
  | billModalClose
  | newRideOffer (r : Ride)

/-- Apply one event to the screen state by dispatching to the corresponding
source handler.  The completion continuations fire only while a submission is
outstanding. -/
noncomputable def stepEvent (s : ScreenState) : ScreenEvent → ScreenState
  | .acceptTap rid => (acceptRideCall s rid).2
  | .acceptResolved resp m => acceptRideResolve s resp m
  | .typeOtp code => { s with enteredOtp := code }
  | .confirmOtpTap => (confirmOTP s).2
  | .completeRideConfirmed =>
      match completeRide s with
      | .readyToSubmit _ _ => submitRideCompletion s
      | _ => s
  | .completionOk result =>
      if s.completionPending then completionSucceeded s result else s
  | .completionRetry =>
      if s.completionPending then submitRideCompletion s else s
  | .completionCancel =>
      if s.completionPending then completionFailedCancel s else s
  | .rideCancelledMsg rid => handleRideCancelled s rid
  | .rideAlreadyAcceptedMsg rid => handleRideAlreadyAccepted s rid
  | .billAlertMsg rid result => handleBillAlert s rid result
  | .billModalClose => handleBillModalClose s
  | .newRideOffer r => handleNewRideOffer s r

/-- Run a sequence of events. -/
noncomputable def runEvents (s : ScreenState) (evs : List ScreenEvent) : ScreenState :=
  evs.foldl stepEvent s

/-! ## Completion request payloads (`submitRideCompletion`) -/

/-- JSON values appearing in the completion payloads. -/
inductive JsonValue
  | jStr (s : String)
  | jNum (x : ℝ)
  | jObj (fields : List (String × JsonValue))

/-- The body of `POST /rides/complete-with-calculation` (lines 3224–3231),
built for the active ride: exactly `rideId`, `driverId`,
`completedLatitude`, `completedLongitude`. -/
def completionHttpBody (r : Ride) (driverId : String) (finalLat finalLng : ℝ) :
    List (String × JsonValue) :=
  [("rideId", .jStr r.rideId),
   ("driverId", .jStr driverId),
   ("completedLatitude", .jNum finalLat),
   ("completedLongitude", .jNum finalLng)]

/-- The `driverCompletedRide` socket payload (lines 3201–3207), built for the
active ride. -/
def driverCompletedRidePayload (r : Ride) (driverId : String)
    (finalLat finalLng : ℝ) (timestamp : String) : List (String × JsonValue) :=
  [("rideId", .jStr r.rideId),
   ("driverId", .jStr driverId),
   ("actualDrop", .jObj [("lat", .jNum finalLat), ("lng", .jNum finalLng)]),
   ("timestamp", .jStr timestamp)]

/-! ## Connection channel configuration (`src/socket.ts`) -/

/-- The socket.io client options relevant to reconnection. -/
structure SocketOptions where
  transports : List String
  autoConnect : Bool
  reconnection : Bool
  reconnectionAttempts : ℕ∞
  reconnectionDelay : ℕ
  reconnectionDelayMax : ℕ
  timeout : ℕ
  forceNew : Bool
  upgrade : Bool
  secure : Bool

/-- The options object passed to `io(SOCKET_URL, …)` in `src/socket.ts`
(lines 119–135).  `reconnectionAttempts: Infinity` is the top element of
`ℕ∞`. -/
def socketOptions : SocketOptions :=
  { transports := ["websocket", "polling"]
    autoConnect := false
    reconnection := true
    reconnectionAttempts := ⊤
    reconnectionDelay := 2000
    reconnectionDelayMax := 10000
    timeout := 30000
    forceNew := false
    upgrade := true
    secure := true }

/-- Modelled from the spec: the socket.io reconnection manager behind the
`reconnection`/`reconnectionAttempts` options (the manager itself is library
code, not part of this repository).  After an unexpected disconnect it
schedules another automatic reconnect exactly while the number of consecutive
failed attempts is still below `reconnectionAttempts`; once the cap is
exceeded it stops and surfaces `reconnect_failed`. -/
def willAutoRetry (opts : SocketOptions) (failedAttempts : ℕ) : Bool :=
  opts.reconnection && decide ((failedAttempts : ℕ∞) < opts.reconnectionAttempts)

/-- The `socket.on("disconnect")` handler (lines 203–210): a *manual*
`socket.connect()` is additionally scheduled only for a server-initiated
disconnect while `autoReconnectEnabled` holds. -/
def scheduleManualReconnect (autoReconnectEnabled : Bool) (reason : String) : Bool :=
  autoReconnectEnabled && (reason = "io server disconnect")

/-! ## Concrete fixtures used by witnesses and counterexamples -/

/-- A concrete active ride. -/
def demoRide : Ride :=
  { rideId := "RIDE-A", otp := "1234", userName := "Asha", userMobile := "9999911111",
    pickup := ⟨12.97, 77.59⟩, drop := ⟨12.99, 77.61⟩, fare := 120 }

/-- A concrete idle screen state. -/
def baseState : ScreenState :=
  { driverId := some "drv-1", socketConnected := true, driverStatus := .online,
    ride := none, rideStatus := .idle, userData := none,
    acceptButtonDisabled := false, isAccepting := false,
    pendingAcceptRideId := none, isLoading := false, enteredOtp := "",
    otpModalVisible := false, otpVerifying := false, otpVerified := false,
    location := some ⟨12.97, 77.59⟩, lastCoord := none, tripStartLocation := none,
    otpVerificationLocation := none, lastLocationBeforeOtp := none,
    distanceSinceOtp := 0, travelledKm := 0, locationHistory := [],
    liveTripDistance := 0, fullRouteCoords := [], visibleRouteCoords := [],
    travelledRoute := [], remainingRoute := [], nearestPointIndex := 0,
    userLocation := none, riderDetailsVisible := false, showBillModal := false,
    billDetails := none, hasOtpMatch := false, completionPending := false }

/-- The state right after `demoRide` was accepted. -/
def demoAccepted : ScreenState :=
  { baseState with ride := some demoRide, rideStatus := .accepted,
                   driverStatus := .onRide }

/-- `demoAccepted` with an accept request already in flight. -/
def demoInFlight : ScreenState :=
  { demoAccepted with isAccepting := true, acceptButtonDisabled := true,
                      pendingAcceptRideId := some "RIDE-A" }

/-! ## Claim theorems -/

/-- C3, counterexample: the claim asserts a finite configured maximum on
automatic reconnect attempts, after which no further attempt occurs.  The
source configures `reconnectionAttempts: Infinity`, and even after 20
consecutive failed reconnects (the upper end of the cap the spec describes)
another automatic attempt is still scheduled. -/
theorem reconnect_cap_counterexample :
    socketOptions.reconnectionAttempts = ⊤ ∧ willAutoRetry socketOptions 20 = true := by
  constructor
  · rfl
  · simp only [willAutoRetry, socketOptions, Bool.true_and, decide_eq_true_eq]
    exact WithTop.coe_lt_top 20

/-- C3, amended: `src/socket.ts` configures `reconnection: true` with
`reconnectionAttempts: Infinity`, so automatic reconnection is unbounded —
after every number of consecutive failed reconnect attempts another automatic
attempt is scheduled, and auto-retry never stops of its own accord. -/
theorem reconnect_unbounded (n : ℕ) : willAutoRetry socketOptions n = true := by
  simp only [willAutoRetry, socketOptions, Bool.true_and, decide_eq_true_eq]
  exact WithTop.coe_lt_top n

/-- C4, counterexample: the completion request body does not carry *only* the
ride identifier and the final coordinates — it also carries the `driverId`
field. -/
theorem completion_payload_counterexample :
    "driverId" ∈ (completionHttpBody demoRide "drv-1" 12.99 77.61).map Prod.fst ∧
      (completionHttpBody demoRide "drv-1" 12.99 77.61).map Prod.fst ≠
        ["rideId", "completedLatitude", "completedLongitude"] := by
  constructor
  · simp [completionHttpBody]
  · simp [completionHttpBody]

/-- C4, amended: the ride-completion path computes no fare or distance
locally.  The HTTP completion body carries exactly
`rideId, driverId, completedLatitude, completedLongitude`, the
`driverCompletedRide` socket payload carries exactly
`rideId, driverId, actualDrop, timestamp`, neither carries any distance,
fare, start-location or location-history field, and the bill presented
afterwards takes its distance, fare and price-per-km verbatim from the
backend's `result.data`. -/
theorem completion_backend_only (r : Ride) (d : String) (lat lng : ℝ)
    (ts : String) (result : ServerCalc) :
    (completionHttpBody r d lat lng).map Prod.fst =
        ["rideId", "driverId", "completedLatitude", "completedLongitude"] ∧
      (driverCompletedRidePayload r d lat lng ts).map Prod.fst =
        ["rideId", "driverId", "actualDrop", "timestamp"] ∧
      (∀ k, k ∈ ["distance", "fare", "startLatitude", "startLongitude",
          "locationHistory"] →
        k ∉ (completionHttpBody r d lat lng).map Prod.fst ∧
          k ∉ (driverCompletedRidePayload r d lat lng ts).map Prod.fst) ∧
      (billDataOf result).distanceKm = result.distance ∧
      (billDataOf result).charge = result.fare ∧
      (billDataOf result).baseFare = result.fare ∧
      (billDataOf result).pricePerKm = result.pricePerKm := by
  refine ⟨rfl, rfl, ?_, rfl, rfl, rfl, rfl⟩
  intro k hk
  fin_cases hk <;> constructor <;>
    simp [completionHttpBody, driverCompletedRidePayload]

/-- C6: a `rideCancelled` message whose `rideId` is not the active ride's id
(or arriving while no ride is active) leaves the entire screen state
unchanged — no transition, no cleanup. -/
theorem rideCancelled_stale_immune :
    (∀ (s : ScreenState) (rid : String), s.ride = none →
        handleRideCancelled s rid = s) ∧
      ∀ (s : ScreenState) (r : Ride) (rid : String), s.ride = some r →
        r.rideId ≠ rid → handleRideCancelled s rid = s := by
  constructor
  · intro s rid h
    unfold handleRideCancelled
    rw [h]
  · intro s r rid h hne
    unfold handleRideCancelled
    rw [h]
    simp [hne]

/-- C6, witness: concrete applications of `rideCancelled_stale_immune` — no
active ride, and an active ride with a different `rideId`. -/
theorem rideCancelled_stale_immune_witness :
    (baseState.ride = none ∧ handleRideCancelled baseState "RIDE-Z" = baseState) ∧
      demoAccepted.ride = some demoRide ∧ demoRide.rideId ≠ "RIDE-Z" ∧
        handleRideCancelled demoAccepted "RIDE-Z" = demoAccepted :=
  ⟨⟨rfl, rideCancelled_stale_immune.1 baseState "RIDE-Z" rfl⟩,
   rfl, by decide,
   rideCancelled_stale_immune.2 demoAccepted demoRide "RIDE-Z" rfl (by decide)⟩

/-- C1: single-flight accept.  (1) While an accept attempt is in flight
(`isAccepting`), any further `acceptRide` invocation — same or different
`rideId` — leaves the state unchanged and emits no second accept request;
(2) when the re-tap carries a resolvable ride id and the driver is
registered, the outcome is precisely the `duplicate` rejection;
(3) once the accept request has been emitted the lock is still held;
(4) the lock (and the pending ride id) is released exactly when the
acknowledgement callback resolves, whatever the response. -/
theorem acceptRide_single_flight :
    (∀ (s : ScreenState) (rid : Option String), s.isAccepting = true →
        (acceptRideCall s rid).2 = s ∧
          ∀ r, (acceptRideCall s rid).1 ≠ .requestEmitted r) ∧
      (∀ (s : ScreenState) (rid : Option String) (rid2 : String),
        s.isAccepting = true →
        strOr rid (s.ride.map (·.rideId)) = some rid2 → rid2 ≠ "" →
        strFalsy s.driverId = false →
        (acceptRideCall s rid).1 = .duplicate) ∧
      (∀ (s : ScreenState) (rid : Option String) (r : String),
        (acceptRideCall s rid).1 = .requestEmitted r →
          ((acceptRideCall s rid).2).isAccepting = true) ∧
      ∀ (s : ScreenState) (resp : AcceptResponse) (m : Bool),
        (acceptRideResolve s resp m).isAccepting = false ∧
          (acceptRideResolve s resp m).acceptButtonDisabled = false ∧
          (acceptRideResolve s resp m).pendingAcceptRideId = none := by
  refine ⟨?_, ?_, ?_, ?_⟩
  · intro s rid hacc
    unfold acceptRideCall
    cases h : strOr rid (s.ride.map (·.rideId)) with
    | none =>
        exact ⟨rfl, fun r hc => AcceptAttempt.noConfusion hc⟩
    | some rid2 =>
        dsimp only
        split_ifs with h1 h2 h3
        · exact ⟨rfl, fun r hc => AcceptAttempt.noConfusion hc⟩
        · exact ⟨rfl, fun r hc => AcceptAttempt.noConfusion hc⟩
        · exact ⟨rfl, fun r hc => AcceptAttempt.noConfusion hc⟩
        · exact absurd (by rw [hacc]; exact Bool.or_true _) h3
        · exact absurd (by rw [hacc]; exact Bool.or_true _) h3
  · intro s rid rid2 hacc h hne hreg
    unfold acceptRideCall
    rw [h]
    dsimp only
    rw [if_neg hne, if_neg (by rw [hreg]; exact Bool.false_ne_true),
      if_pos (by rw [hacc, Bool.or_true])]
  · intro s rid r
    unfold acceptRideCall
    cases h : strOr rid (s.ride.map (·.rideId)) with
    | none => exact fun hc => absurd hc (fun hc2 => AcceptAttempt.noConfusion hc2)
    | some rid2 =>
        dsimp only
        split_ifs with h1 h2 h3 h4
        · intro hc; simp at hc
        · intro hc; simp at hc
        · intro hc; simp at hc
        · intro _
          rcases s.ride with _ | r2 <;> rcases s.userData with _ | u <;> rfl
        · intro hc; simp at hc
  · intro s resp m
    by_cases hm : m <;> cases resp <;>
      simp [acceptRideResolve, hm, clearMapData, hideRiderDetails] <;>
      cases hu : s.userData <;> cases hr : s.ride <;> simp

/-- C1, witness: concrete instances — a re-tap on the same screen state while
`demoInFlight.isAccepting` holds is a no-op `duplicate`; a fresh accept on
`demoAccepted` emits and holds the lock; a resolution releases it. -/
theorem acceptRide_single_flight_witness :
    (demoInFlight.isAccepting = true ∧
       (acceptRideCall demoInFlight (some "RIDE-B")).2 = demoInFlight ∧
       ∀ r, (acceptRideCall demoInFlight (some "RIDE-B")).1 ≠ .requestEmitted r) ∧
      (strOr (some "RIDE-B") (demoInFlight.ride.map (·.rideId)) = some "RIDE-B" ∧
         "RIDE-B" ≠ "" ∧ strFalsy demoInFlight.driverId = false ∧
         (acceptRideCall demoInFlight (some "RIDE-B")).1 = .duplicate) ∧
      ((acceptRideCall demoAccepted (some "RIDE-A")).1 = .requestEmitted "RIDE-A" ∧
         ((acceptRideCall demoAccepted (some "RIDE-A")).2).isAccepting = true) ∧
      (acceptRideResolve demoInFlight .success true).isAccepting = false :=
  ⟨⟨rfl, (acceptRide_single_flight.1 demoInFlight (some "RIDE-B") rfl).1,
     (acceptRide_single_flight.1 demoInFlight (some "RIDE-B") rfl).2⟩,
   ⟨rfl, by decide, rfl,
     acceptRide_single_flight.2.1 demoInFlight (some "RIDE-B") "RIDE-B" rfl rfl
       (by decide) rfl⟩,
   ⟨rfl, acceptRide_single_flight.2.2.1 demoAccepted (some "RIDE-A") "RIDE-A" rfl⟩,
   (acceptRide_single_flight.2.2.2 demoInFlight .success true).1⟩

/-! ### OTP gate machinery (C2) -/

/-- Trace invariant for the OTP gate: whenever the status is `started`, or a
completion submission (which can only start from `started`) is outstanding,
the successful-OTP-comparison marker has been set. -/
def OtpInv (s : ScreenState) : Prop :=
  (s.rideStatus = .started ∨ s.completionPending = true) → s.hasOtpMatch = true

lemma acceptRideCall_fields (s : ScreenState) (rid : Option String) :
    ((acceptRideCall s rid).2).rideStatus = s.rideStatus ∧
      ((acceptRideCall s rid).2).completionPending = s.completionPending ∧
      ((acceptRideCall s rid).2).hasOtpMatch = s.hasOtpMatch := by
  unfold acceptRideCall
  cases h : strOr rid (s.ride.map (·.rideId)) with
  | none => exact ⟨rfl, rfl, rfl⟩
  | some rid2 =>
      dsimp only
      split_ifs with h1 h2 h3 h4
      · exact ⟨rfl, rfl, rfl⟩
      · exact ⟨rfl, rfl, rfl⟩
      · exact ⟨rfl, rfl, rfl⟩
      · rcases s.ride with _ | r2 <;> rcases s.userData with _ | u <;>
          exact ⟨rfl, rfl, rfl⟩
      · exact ⟨rfl, rfl, rfl⟩

lemma acceptRideResolve_fields (s : ScreenState) (resp : AcceptResponse) (m : Bool) :
    ((acceptRideResolve s resp m).rideStatus = s.rideStatus ∨
        (acceptRideResolve s resp m).rideStatus = .accepted ∨
        (acceptRideResolve s resp m).rideStatus = .idle) ∧
      (acceptRideResolve s resp m).completionPending = s.completionPending ∧
      (acceptRideResolve s resp m).hasOtpMatch = s.hasOtpMatch := by
  unfold acceptRideResolve
  cases m with
  | false => exact ⟨Or.inl rfl, rfl, rfl⟩
  | true =>
      cases resp with
      | success =>
          dsimp only
          rcases s.userData with _ | u <;> rcases s.ride with _ | r <;>
            exact ⟨Or.inr (Or.inl rfl), rfl, rfl⟩
      | rideCancelled => exact ⟨Or.inr (Or.inr rfl), rfl, rfl⟩
      | alreadyAccepted => exact ⟨Or.inr (Or.inr rfl), rfl, rfl⟩
      | failure => exact ⟨Or.inr (Or.inr rfl), rfl, rfl⟩

lemma handleRideCancelled_fields (s : ScreenState) (rid : String) :
    ((handleRideCancelled s rid).rideStatus = s.rideStatus ∨
        (handleRideCancelled s rid).rideStatus = .idle) ∧
      (handleRideCancelled s rid).completionPending = s.completionPending ∧
      (handleRideCancelled s rid).hasOtpMatch = s.hasOtpMatch := by
  unfold handleRideCancelled
  rcases s.ride with _ | r
  · exact ⟨Or.inl rfl, rfl, rfl⟩
  · dsimp only
    split_ifs with h1 h2
    · exact ⟨Or.inl rfl, rfl, rfl⟩
    · exact ⟨Or.inr rfl, rfl, rfl⟩
    · exact ⟨Or.inl rfl, rfl, rfl⟩

lemma handleRideAlreadyAccepted_fields (s : ScreenState) (rid : String) :
    ((handleRideAlreadyAccepted s rid).rideStatus = s.rideStatus ∨
        (handleRideAlreadyAccepted s rid).rideStatus = .idle) ∧
      (handleRideAlreadyAccepted s rid).completionPending = s.completionPending ∧
      (handleRideAlreadyAccepted s rid).hasOtpMatch = s.hasOtpMatch := by
  unfold handleRideAlreadyAccepted
  rcases s.ride with _ | r
  · exact ⟨Or.inl rfl, rfl, rfl⟩
  · dsimp only
    split_ifs with h1
    · exact ⟨Or.inr rfl, rfl, rfl⟩
    · exact ⟨Or.inl rfl, rfl, rfl⟩

lemma handleBillAlert_fields (s : ScreenState) (rid : String) (result : ServerCalc) :
    ((handleBillAlert s rid result).rideStatus = s.rideStatus ∨
        (handleBillAlert s rid result).rideStatus = .completed) ∧
      (handleBillAlert s rid result).completionPending = s.completionPending ∧
      (handleBillAlert s rid result).hasOtpMatch = s.hasOtpMatch := by
  unfold handleBillAlert
  rcases s.ride with _ | r
  · exact ⟨Or.inl rfl, rfl, rfl⟩
  · dsimp only
    split_ifs with h1
    · exact ⟨Or.inr rfl, rfl, rfl⟩
    · exact ⟨Or.inl rfl, rfl, rfl⟩

lemma completeRide_ready {s : ScreenState} {lat lng : ℝ}
    (h : completeRide s = .readyToSubmit lat lng) : s.rideStatus = .started := by
  unfold completeRide at h
  by_cases h1 : s.rideStatus = .started
  · exact h1
  · rw [if_pos h1] at h
    cases h

lemma confirmOTP_inv {s : ScreenState} (h : OtpInv s) : OtpInv ((confirmOTP s).2) := by
  unfold confirmOTP
  rcases s.ride with _ | r
  · exact h
  · dsimp only
    split_ifs with h1 h2 h3 h4
    · exact h
    · exact h
    · exact h
    · cases hl : s.location.orElse (fun x => s.lastCoord) with
      | none => exact h
      | some sp => exact h
    · cases hl : s.location.orElse (fun x => s.lastCoord) with
      | none => exact h
      | some sp =>
          intro _
          rfl

lemma stepEvent_inv {s : ScreenState} (e : ScreenEvent) (h : OtpInv s) :
    OtpInv (stepEvent s e) := by
  cases e with
  | acceptTap rid =>
      have hf := acceptRideCall_fields s rid
      simp only [stepEvent]
      intro hc
      rw [hf.2.2]
      apply h
      rcases hc with hc | hc
      · exact Or.inl (by rw [← hf.1]; exact hc)
      · exact Or.inr (by rw [← hf.2.1]; exact hc)
  | acceptResolved resp m =>
      have hf := acceptRideResolve_fields s resp m
      simp only [stepEvent]
      intro hc
      rw [hf.2.2]
      rcases hc with hc | hc
      · rcases hf.1 with he | he | he
        · exact h (Or.inl (he ▸ hc))
        · rw [he] at hc; cases hc
        · rw [he] at hc; cases hc
      · exact h (Or.inr (by rw [← hf.2.1]; exact hc))
  | typeOtp code => exact h
  | confirmOtpTap => exact confirmOTP_inv h
  | completeRideConfirmed =>
      show OtpInv (match completeRide s with
        | .readyToSubmit _ _ => submitRideCompletion s
        | _ => s)
      cases hc : completeRide s with
      | notStarted => exact h
      | noRide => exact h
      | noLocation => exact h
      | readyToSubmit lat lng =>
          intro _
          exact h (Or.inl (completeRide_ready hc))
  | completionOk result =>
      show OtpInv (if s.completionPending then completionSucceeded s result else s)
      by_cases hp : s.completionPending
      · rw [if_pos hp]
        intro hc
        exact h (Or.inr hp)
      · rw [if_neg hp]; exact h
  | completionRetry =>
      show OtpInv (if s.completionPending then submitRideCompletion s else s)
      by_cases hp : s.completionPending
      · rw [if_pos hp]
        intro _
        exact h (Or.inr hp)
      · rw [if_neg hp]; exact h
  | completionCancel =>
      show OtpInv (if s.completionPending then completionFailedCancel s else s)
      by_cases hp : s.completionPending
      · rw [if_pos hp]
        intro _
        exact h (Or.inr hp)
      · rw [if_neg hp]; exact h
  | rideCancelledMsg rid =>
      have hf := handleRideCancelled_fields s rid
      simp only [stepEvent]
      intro hc
      rw [hf.2.2]
      rcases hc with hc | hc
      · rcases hf.1 with he | he
        · exact h (Or.inl (he ▸ hc))
        · rw [he] at hc; cases hc
      · exact h (Or.inr (by rw [← hf.2.1]; exact hc))
  | rideAlreadyAcceptedMsg rid =>
      have hf := handleRideAlreadyAccepted_fields s rid
      simp only [stepEvent]
      intro hc
      rw [hf.2.2]
      rcases hc with hc | hc
      · rcases hf.1 with he | he
        · exact h (Or.inl (he ▸ hc))
        · rw [he] at hc; cases hc
      · exact h (Or.inr (by rw [← hf.2.1]; exact hc))
  | billAlertMsg rid result =>
      have hf := handleBillAlert_fields s rid result
      simp only [stepEvent]
      intro hc
      rw [hf.2.2]
      rcases hc with hc | hc
      · rcases hf.1 with he | he
        · exact h (Or.inl (he ▸ hc))
        · rw [he] at hc; cases hc
      · exact h (Or.inr (by rw [← hf.2.1]; exact hc))
  | billModalClose =>
      intro hc
      rcases hc with hc | hc
      · cases hc
      · exact h (Or.inr hc)
  | newRideOffer r =>
      intro hc
      rcases hc with hc | hc
      · cases hc
      · exact h (Or.inr hc)

lemma runEvents_inv (s : ScreenState) (evs : List ScreenEvent) (h : OtpInv s) :
    OtpInv (runEvents s evs) := by
  induction evs generalizing s with
  | nil => exact h
  | cons e rest ih => exact ih (stepEvent s e) (stepEvent_inv e h)

/-- Events for the concrete OTP-gate trace: type the correct code, confirm. -/
def demoOtpEvents : List ScreenEvent :=
  [ScreenEvent.typeOtp "1234", ScreenEvent.confirmOtpTap]

/-- `demoAccepted` after the driver typed the correct code. -/
def demoTyped : ScreenState := { demoAccepted with enteredOtp := "1234" }

/-- `demoAccepted` after the driver typed a wrong 4-digit code. -/
def demoWrongOtp : ScreenState := { demoAccepted with enteredOtp := "9999" }

/-- C2: the OTP gate.  (a) Starting from `accepted` with no successful
comparison recorded and no completion outstanding, any event sequence that
ends in `started` has performed a successful OTP comparison; (b) the
comparison marker is set only by a `confirmOTP` call whose entered code is a
4-digit string equal to the Ride's `otp`; (c) on a wrong code or a code of
the wrong length `confirmOTP` leaves the ride status unchanged (in
particular still `accepted`) and does not report `tripStarted` — a
recoverable outcome. -/
theorem otp_gate :
    (∀ (s : ScreenState) (evs : List ScreenEvent),
        s.rideStatus = .accepted → s.hasOtpMatch = false →
        s.completionPending = false →
        (runEvents s evs).rideStatus = .started →
        (runEvents s evs).hasOtpMatch = true) ∧
      (∀ (s : ScreenState) (e : ScreenEvent), s.hasOtpMatch = false →
        (stepEvent s e).hasOtpMatch = true →
        e = .confirmOtpTap ∧ ∃ r, s.ride = some r ∧ s.enteredOtp = r.otp ∧
          s.enteredOtp.length = 4 ∧ (confirmOTP s).1 = .tripStarted) ∧
      ∀ (s : ScreenState) (r : Ride), s.ride = some r →
        (s.enteredOtp ≠ r.otp ∨ s.enteredOtp.length ≠ 4) →
        (confirmOTP s).2.rideStatus = s.rideStatus ∧
          (confirmOTP s).1 ≠ .tripStarted := by
  refine ⟨?_, ?_, ?_⟩
  · intro s evs h1 h2 h3 h4
    have hi : OtpInv s := by
      intro hc
      rcases hc with hc | hc
      · rw [h1] at hc; cases hc
      · rw [h3] at hc; cases hc
    exact runEvents_inv s evs hi (Or.inl h4)
  · intro s e hm hset
    cases e with
    | acceptTap rid =>
        have hp : ((acceptRideCall s rid).2).hasOtpMatch = true := hset
        rw [(acceptRideCall_fields s rid).2.2, hm] at hp
        cases hp
    | acceptResolved resp m =>
        have hp : (acceptRideResolve s resp m).hasOtpMatch = true := hset
        rw [(acceptRideResolve_fields s resp m).2.2, hm] at hp
        cases hp
    | typeOtp code =>
        have hp : s.hasOtpMatch = true := hset
        rw [hm] at hp
        cases hp
    | confirmOtpTap =>
        have hset2 : ((confirmOTP s).2).hasOtpMatch = true := hset
        unfold confirmOTP at hset2
        rcases hride : s.ride with _ | r
        · rw [hride] at hset2
          dsimp only at hset2
          rw [hm] at hset2
          cases hset2
        · rw [hride] at hset2
          dsimp only at hset2
          split_ifs at hset2 with h1 h2 h3 h4
          · rw [hm] at hset2; cases hset2
          · rw [hm] at hset2; cases hset2
          · rw [hm] at hset2; cases hset2
          · cases hl : s.location.orElse (fun x => s.lastCoord) with
            | none => rw [hl] at hset2; dsimp only at hset2; rw [hm] at hset2; cases hset2
            | some sp => rw [hl] at hset2; dsimp only at hset2; rw [hm] at hset2; cases hset2
          · cases hl : s.location.orElse (fun x => s.lastCoord) with
            | none => rw [hl] at hset2; dsimp only at hset2; rw [hm] at hset2; cases hset2
            | some sp =>
                refine ⟨rfl, r, rfl, not_ne_iff.mp h4, not_ne_iff.mp h2, ?_⟩
                unfold confirmOTP
                rw [hride]
                dsimp only
                rw [if_neg h1, if_neg h2, if_neg h3, hl]
                dsimp only
                rw [if_neg h4]
    | completeRideConfirmed =>
        have hp : (match completeRide s with
            | .readyToSubmit _ _ => submitRideCompletion s
            | _ => s).hasOtpMatch = true := hset
        cases hc : completeRide s with
        | notStarted => rw [hc] at hp; dsimp only at hp; rw [hm] at hp; cases hp
        | noRide => rw [hc] at hp; dsimp only at hp; rw [hm] at hp; cases hp
        | noLocation => rw [hc] at hp; dsimp only at hp; rw [hm] at hp; cases hp
        | readyToSubmit lat lng =>
            rw [hc] at hp
            dsimp only at hp
            have hp2 : s.hasOtpMatch = true := hp
            rw [hm] at hp2
            cases hp2
    | completionOk result =>
        have hp : (if s.completionPending then completionSucceeded s result else s).hasOtpMatch
            = true := hset
        by_cases hpend : s.completionPending
        · rw [if_pos hpend] at hp
          have hp2 : s.hasOtpMatch = true := hp
          rw [hm] at hp2; cases hp2
        · rw [if_neg hpend] at hp; rw [hm] at hp; cases hp
    | completionRetry =>
        have hp : (if s.completionPending then submitRideCompletion s else s).hasOtpMatch
            = true := hset
        by_cases hpend : s.completionPending
        · rw [if_pos hpend] at hp
          have hp2 : s.hasOtpMatch = true := hp
          rw [hm] at hp2; cases hp2
        · rw [if_neg hpend] at hp; rw [hm] at hp; cases hp
    | completionCancel =>
        have hp : (if s.completionPending then completionFailedCancel s else s).hasOtpMatch
            = true := hset
        by_cases hpend : s.completionPending
        · rw [if_pos hpend] at hp
          have hp2 : s.hasOtpMatch = true := hp
          rw [hm] at hp2; cases hp2
        · rw [if_neg hpend] at hp; rw [hm] at hp; cases hp
    | rideCancelledMsg rid =>
        have hp : (handleRideCancelled s rid).hasOtpMatch = true := hset
        rw [(handleRideCancelled_fields s rid).2.2, hm] at hp
        cases hp
    | rideAlreadyAcceptedMsg rid =>
        have hp : (handleRideAlreadyAccepted s rid).hasOtpMatch = true := hset
        rw [(handleRideAlreadyAccepted_fields s rid).2.2, hm] at hp
        cases hp
    | billAlertMsg rid result =>
        have hp : (handleBillAlert s rid result).hasOtpMatch = true := hset
        rw [(handleBillAlert_fields s rid result).2.2, hm] at hp
        cases hp
    | billModalClose =>
        have hp : s.hasOtpMatch = true := hset
        rw [hm] at hp
        cases hp
    | newRideOffer r =>
        have hp : s.hasOtpMatch = true := hset
        rw [hm] at hp
        cases hp
  · intro s r hride hbad
    unfold confirmOTP
    rw [hride]
    dsimp only
    split_ifs with h1 h2 h3 h4
    · exact ⟨rfl, fun hc => OtpOutcome.noConfusion hc⟩
    · exact ⟨rfl, fun hc => OtpOutcome.noConfusion hc⟩
    · exact ⟨rfl, fun hc => OtpOutcome.noConfusion hc⟩
    · cases hl : s.location.orElse (fun x => s.lastCoord) with
      | none => exact ⟨rfl, fun hc => OtpOutcome.noConfusion hc⟩
      | some sp => exact ⟨rfl, fun hc => OtpOutcome.noConfusion hc⟩
    · rcases hbad with hb | hb
      · exact absurd (not_ne_iff.mp h4) hb
      · exact absurd (not_ne_iff.mp h2) hb

/-- C2, witness: a concrete run from `demoAccepted` through typing the
correct code and confirming reaches `started` with the comparison marker set;
the marker-setting step is the confirm tap on `demoTyped`; a wrong code on
`demoWrongOtp` leaves the status `accepted`. -/
theorem otp_gate_witness :
    (demoAccepted.rideStatus = .accepted ∧ demoAccepted.hasOtpMatch = false ∧
       demoAccepted.completionPending = false ∧
       (runEvents demoAccepted demoOtpEvents).rideStatus = .started ∧
       (runEvents demoAccepted demoOtpEvents).hasOtpMatch = true) ∧
      (demoTyped.hasOtpMatch = false ∧
         (stepEvent demoTyped .confirmOtpTap).hasOtpMatch = true ∧
         (ScreenEvent.confirmOtpTap = .confirmOtpTap ∧ ∃ r,
           demoTyped.ride = some r ∧ demoTyped.enteredOtp = r.otp ∧
             demoTyped.enteredOtp.length = 4 ∧
             (confirmOTP demoTyped).1 = .tripStarted)) ∧
      (demoWrongOtp.ride = some demoRide ∧
         (demoWrongOtp.enteredOtp ≠ demoRide.otp ∨
           demoWrongOtp.enteredOtp.length ≠ 4) ∧
         (confirmOTP demoWrongOtp).2.rideStatus = demoWrongOtp.rideStatus ∧
         (confirmOTP demoWrongOtp).1 ≠ .tripStarted) :=
  ⟨⟨rfl, rfl, rfl, rfl, otp_gate.1 demoAccepted demoOtpEvents rfl rfl rfl rfl⟩,
   ⟨rfl, rfl, otp_gate.2.1 demoTyped .confirmOtpTap rfl rfl⟩,
   ⟨rfl, Or.inl (by decide),
     (otp_gate.2.2 demoWrongOtp demoRide rfl (Or.inl (by decide))).1,
     (otp_gate.2.2 demoWrongOtp demoRide rfl (Or.inl (by decide))).2⟩⟩

/-! ### LocationTracker claims (C5, C10) -/

/-- `Math.atan2 x x = π/4` for positive `x`. -/
lemma atan2_self_pos {x : ℝ} (hx : 0 < x) : atan2 x x = Real.pi / 4 := by
  unfold atan2
  rw [if_pos hx, div_self hx.ne', Real.arctan_one]

/-- The haversine distance from `(0°, 0°)` to `(90°, 0°)`: a quarter of the
Earth's circumference, `6371000 · π/2` metres. -/
lemma calculateDistance_zero_ninety :
    calculateDistance 0 0 90 0 = 6371000 * (Real.pi / 2) := by
  unfold calculateDistance
  dsimp only
  rw [show ((90 : ℝ) - 0) * Real.pi / 180 = Real.pi / 2 by ring,
    show ((0 : ℝ) - 0) * Real.pi / 180 = 0 by ring,
    show (0 : ℝ) * Real.pi / 180 = 0 by ring,
    show ((90 : ℝ)) * Real.pi / 180 = Real.pi / 2 by ring]
  rw [show Real.pi / 2 / 2 = Real.pi / 4 by ring, zero_div, Real.sin_zero,
    Real.sin_pi_div_four, Real.cos_zero, Real.cos_pi_div_two]
  rw [show (Real.sqrt 2 / 2 * (Real.sqrt 2 / 2) + 1 * 0 * 0 * 0 : ℝ)
        = Real.sqrt 2 * Real.sqrt 2 / 4 by ring]
  rw [Real.mul_self_sqrt (by norm_num : (0 : ℝ) ≤ 2)]
  rw [show ((2 : ℝ) / 4) = 1 / 2 by norm_num]
  rw [show (1 : ℝ) - 1 / 2 = 1 / 2 by norm_num]
  rw [atan2_self_pos (Real.sqrt_pos.mpr (by norm_num))]
  ring

/-- The previous fix of the concrete accepted-movement run. -/
def pStart : LocationPoint := ⟨0, 0, 0, none⟩

/-- A tracker that has accepted `pStart` and travelled 0 m so far (the
smoothing buffer modelled empty, which the state type allows). -/
def trStart : LocationTracker := ⟨some pStart, 0, []⟩

/-- The distance of the concrete accepted movement. -/
noncomputable def distNinety : ℝ := 6371000 * (Real.pi / 2)

/-- The `TrackingResult` of the concrete accepted movement. -/
noncomputable def rNinety : TrackingResult := ⟨distNinety, distNinety, distNinety / 1000, 90, 0⟩

/-- The tracker state after the concrete accepted movement. -/
noncomputable def trAfterNinety : LocationTracker :=
  ⟨some ⟨90, 0, 1000000000, none⟩, distNinety, [⟨90, 0, 1000000000, none⟩]⟩

lemma ninety_ge_five : minDistanceThreshold ≤ 6371000 * (Real.pi / 2) := by
  unfold minDistanceThreshold
  nlinarith [Real.pi_gt_three]

lemma ninety_speed_ok :
    ¬ maxSpeedThreshold < 6371000 * (Real.pi / 2) / ((1000000000 - (0 : ℝ)) / 1000) := by
  unfold maxSpeedThreshold
  rw [not_lt]
  rw [show ((1000000000 : ℝ) - 0) / 1000 = 1000000 by norm_num]
  rw [div_le_iff₀ (by norm_num : (0 : ℝ) < 1000000)]
  nlinarith [Real.pi_lt_d2]

/-- Evaluation of `processLocation` on the concrete accepted movement
`(0°,0°) → (90°,0°)` over 10⁶ seconds (≈10 m/s). -/
lemma processLocation_ninety_eval :
    processLocation trStart 90 0 1000000000 none = (some rNinety, trAfterNinety) := by
  unfold processLocation
  rw [if_neg (by simp [isValidLocation]), if_neg (by simp [accuracyRejected])]
  dsimp only
  rw [show trStart.lastValidLocation = some pStart from rfl]
  dsimp only
  have hbuf : pushBuffer trStart.locationBuffer ⟨90, 0, 1000000000, none⟩
      = [⟨90, 0, 1000000000, none⟩] := by
    simp [trStart, pushBuffer, smoothingBufferSize]
  rw [hbuf]
  have hsl : smoothedLat [(⟨90, 0, 1000000000, none⟩ : LocationPoint)] 90 = 90 := by
    unfold smoothedLat
    norm_num
  have hsg : smoothedLng [(⟨90, 0, 1000000000, none⟩ : LocationPoint)] 0 = 0 := by
    unfold smoothedLng
    norm_num
  rw [hsl, hsg]
  rw [show pStart.latitude = 0 from rfl, show pStart.longitude = 0 from rfl,
    show pStart.timestamp = 0 from rfl]
  rw [calculateDistance_zero_ninety]
  rw [if_pos (by norm_num : (0 : ℝ) < (1000000000 - 0) / 1000)]
  rw [if_neg (not_lt.mpr ninety_ge_five)]
  rw [if_neg ninety_speed_ok]
  unfold rNinety trAfterNinety trStart distNinety
  norm_num

/-- The general jitter-rejection fact behind C5: when the accuracy gate
passes, a previous smoothed point exists, and the haversine distance to the
new smoothed point is below 5 m, `processLocation` rejects the fix, leaving
`totalDistance` and `lastValidLocation` untouched — but the fix has already
been pushed into the smoothing buffer. -/
lemma processLocation_jitter (t : LocationTracker) (newLat newLng timestamp : ℝ)
    (accuracy : Option ℝ) (prev : LocationPoint)
    (hacc : ¬ accuracyRejected accuracy)
    (hprev : t.lastValidLocation = some prev)
    (hd : calculateDistance prev.latitude prev.longitude
        (smoothedLat (pushBuffer t.locationBuffer ⟨newLat, newLng, timestamp, accuracy⟩) newLat)
        (smoothedLng (pushBuffer t.locationBuffer ⟨newLat, newLng, timestamp, accuracy⟩) newLng)
        < minDistanceThreshold) :
    (processLocation t newLat newLng timestamp accuracy).1 = none ∧
      ((processLocation t newLat newLng timestamp accuracy).2).totalDistance
        = t.totalDistance ∧
      ((processLocation t newLat newLng timestamp accuracy).2).lastValidLocation
        = t.lastValidLocation ∧
      ((processLocation t newLat newLng timestamp accuracy).2).locationBuffer
        = pushBuffer t.locationBuffer ⟨newLat, newLng, timestamp, accuracy⟩ := by
  unfold processLocation
  rw [if_neg (by simp [isValidLocation]), if_neg hacc]
  dsimp only
  rw [hprev]
  dsimp only
  rw [if_pos hd]
  exact ⟨rfl, rfl, rfl, rfl⟩

/-- A tracker that has accepted `pStart` with `pStart` still in the smoothing
buffer. -/
def trJitter : LocationTracker := ⟨some pStart, 0, [pStart]⟩

lemma trJitter_smoothed_lt :
    calculateDistance pStart.latitude pStart.longitude
        (smoothedLat (pushBuffer trJitter.locationBuffer ⟨0, 0, 1000, none⟩) 0)
        (smoothedLng (pushBuffer trJitter.locationBuffer ⟨0, 0, 1000, none⟩) 0)
      < minDistanceThreshold := by
  have hsl : smoothedLat (pushBuffer trJitter.locationBuffer ⟨0, 0, 1000, none⟩) 0 = 0 := by
    unfold trJitter pushBuffer smoothedLat pStart smoothingBufferSize
    norm_num
  have hsg : smoothedLng (pushBuffer trJitter.locationBuffer ⟨0, 0, 1000, none⟩) 0 = 0 := by
    unfold trJitter pushBuffer smoothedLng pStart smoothingBufferSize
    norm_num
  rw [hsl, hsg, show pStart.latitude = 0 from rfl, show pStart.longitude = 0 from rfl,
    calculateDistance_self]
  unfold minDistanceThreshold
  norm_num

/-- C5, counterexample: a sub-5 m fix *is* rejected and `totalDistance` is
untouched, but the call is not state-preserving — the fix has been pushed
into the smoothing buffer, so the tracker state after the call differs from
the state before it. -/
theorem jitter_reject_counterexample :
    (processLocation trJitter 0 0 1000 none).1 = none ∧
      calculateDistance pStart.latitude pStart.longitude
          (smoothedLat (pushBuffer trJitter.locationBuffer ⟨0, 0, 1000, none⟩) 0)
          (smoothedLng (pushBuffer trJitter.locationBuffer ⟨0, 0, 1000, none⟩) 0)
        < minDistanceThreshold ∧
      (processLocation trJitter 0 0 1000 none).2 ≠ trJitter := by
  have h := processLocation_jitter trJitter 0 0 1000 none pStart
    (by simp [accuracyRejected]) rfl trJitter_smoothed_lt
  refine ⟨h.1, trJitter_smoothed_lt, ?_⟩
  intro heq
  have hb := h.2.2.2
  rw [heq] at hb
  have hpb : pushBuffer trJitter.locationBuffer ⟨0, 0, 1000, none⟩
      = [pStart, ⟨0, 0, 1000, none⟩] := rfl
  rw [hpb] at hb
  have hlen := congrArg List.length hb
  simp [trJitter] at hlen

/-- C5, amended: for every `processLocation` call that passes the accuracy
gate, has a previous smoothed point and whose haversine distance to the new
smoothed point is below 5 m, the call is rejected (`null`), and neither
`totalDistance` nor the stored last position changes; the one state change
that does occur is that the fix has been appended to the smoothing buffer
(evicting the oldest entry when the buffer is full). -/
theorem jitter_reject_state (t : LocationTracker) (newLat newLng timestamp : ℝ)
    (accuracy : Option ℝ) (prev : LocationPoint)
    (hacc : ¬ accuracyRejected accuracy)
    (hprev : t.lastValidLocation = some prev)
    (hd : calculateDistance prev.latitude prev.longitude
        (smoothedLat (pushBuffer t.locationBuffer ⟨newLat, newLng, timestamp, accuracy⟩) newLat)
        (smoothedLng (pushBuffer t.locationBuffer ⟨newLat, newLng, timestamp, accuracy⟩) newLng)
        < minDistanceThreshold) :
    (processLocation t newLat newLng timestamp accuracy).1 = none ∧
      ((processLocation t newLat newLng timestamp accuracy).2).totalDistance
        = t.totalDistance ∧
      ((processLocation t newLat newLng timestamp accuracy).2).lastValidLocation
        = t.lastValidLocation ∧
      ((processLocation t newLat newLng timestamp accuracy).2).locationBuffer
        = pushBuffer t.locationBuffer ⟨newLat, newLng, timestamp, accuracy⟩ :=
  processLocation_jitter t newLat newLng timestamp accuracy prev hacc hprev hd

/-- C5, witness: the amended theorem applied to the concrete jitter call on
`trJitter`. -/
theorem jitter_reject_state_witness :
    (¬ accuracyRejected (none : Option ℝ)) ∧
      trJitter.lastValidLocation = some pStart ∧
      calculateDistance pStart.latitude pStart.longitude
          (smoothedLat (pushBuffer trJitter.locationBuffer ⟨0, 0, 1000, none⟩) 0)
          (smoothedLng (pushBuffer trJitter.locationBuffer ⟨0, 0, 1000, none⟩) 0)
        < minDistanceThreshold ∧
      ((processLocation trJitter 0 0 1000 none).1 = none ∧
        ((processLocation trJitter 0 0 1000 none).2).totalDistance
          = trJitter.totalDistance ∧
        ((processLocation trJitter 0 0 1000 none).2).lastValidLocation
          = trJitter.lastValidLocation ∧
        ((processLocation trJitter 0 0 1000 none).2).locationBuffer
          = pushBuffer trJitter.locationBuffer ⟨0, 0, 1000, none⟩) :=
  ⟨by simp [accuracyRejected], rfl, trJitter_smoothed_lt,
   jitter_reject_state trJitter 0 0 1000 none pStart (by simp [accuracyRejected])
     rfl trJitter_smoothed_lt⟩

/-- C10: the accumulated distance of a `LocationTracker` never decreases
across `processLocation` calls; whenever a call with a previous smoothed
point is accepted, the accumulator grows by exactly the haversine distance of
the movement, which the jitter filter forces to be at least 5 m; and
`reset()` returns the accumulator (as read by `getCurrentDistance`) to 0. -/
theorem tracker_monotone :
    (∀ (t : LocationTracker) (lat lng ts : ℝ) (acc : Option ℝ),
        t.totalDistance ≤ ((processLocation t lat lng ts acc).2).totalDistance) ∧
      (∀ (t : LocationTracker) (lat lng ts : ℝ) (acc : Option ℝ)
          (prev : LocationPoint) (r : TrackingResult),
        t.lastValidLocation = some prev →
        (processLocation t lat lng ts acc).1 = some r →
        ((processLocation t lat lng ts acc).2).totalDistance
            = t.totalDistance + calculateDistance prev.latitude prev.longitude
                (smoothedLat (pushBuffer t.locationBuffer ⟨lat, lng, ts, acc⟩) lat)
                (smoothedLng (pushBuffer t.locationBuffer ⟨lat, lng, ts, acc⟩) lng) ∧
          minDistanceThreshold ≤ calculateDistance prev.latitude prev.longitude
                (smoothedLat (pushBuffer t.locationBuffer ⟨lat, lng, ts, acc⟩) lat)
                (smoothedLng (pushBuffer t.locationBuffer ⟨lat, lng, ts, acc⟩) lng)) ∧
      ∀ t : LocationTracker, getCurrentDistance (resetTracker t) = 0 := by
  refine ⟨?_, ?_, fun t => rfl⟩
  · intro t lat lng ts acc
    unfold processLocation
    rw [if_neg (by simp [isValidLocation])]
    by_cases hacc : accuracyRejected acc
    · rw [if_pos hacc]
    · rw [if_neg hacc]
      dsimp only
      cases hp : t.lastValidLocation with
      | none => exact le_rfl
      | some prev =>
          dsimp only
          split_ifs with h1 h2 h3 <;>
            first
              | exact le_rfl
              | (have h0 : (0 : ℝ) ≤ calculateDistance prev.latitude prev.longitude
                    (smoothedLat (pushBuffer t.locationBuffer ⟨lat, lng, ts, acc⟩) lat)
                    (smoothedLng (pushBuffer t.locationBuffer ⟨lat, lng, ts, acc⟩) lng) :=
                  calculateDistance_nonneg _ _ _ _
                 dsimp only
                 linarith)
  · intro t lat lng ts acc prev r hprev hsome
    unfold processLocation at hsome ⊢
    rw [if_neg (by simp [isValidLocation])] at hsome ⊢
    by_cases hacc : accuracyRejected acc
    · rw [if_pos hacc] at hsome
      cases hsome
    · rw [if_neg hacc] at hsome ⊢
      dsimp only at hsome ⊢
      rw [hprev] at hsome ⊢
      dsimp only at hsome ⊢
      split_ifs at hsome ⊢ with h1 h2 h3 <;>
        first
          | exact ⟨rfl, not_lt.mp h1⟩
          | cases hsome

/-- C10, witness: the concrete accepted movement `(0°,0°) → (90°,0°)` grows
the accumulator by its haversine distance, which is at least 5 m, and a reset
returns it to 0. -/
theorem tracker_monotone_witness :
    trStart.lastValidLocation = some pStart ∧
      (processLocation trStart 90 0 1000000000 none).1 = some rNinety ∧
      (((processLocation trStart 90 0 1000000000 none).2).totalDistance
          = trStart.totalDistance + calculateDistance pStart.latitude pStart.longitude
              (smoothedLat (pushBuffer trStart.locationBuffer ⟨90, 0, 1000000000, none⟩) 90)
              (smoothedLng (pushBuffer trStart.locationBuffer ⟨90, 0, 1000000000, none⟩) 0) ∧
        minDistanceThreshold ≤ calculateDistance pStart.latitude pStart.longitude
              (smoothedLat (pushBuffer trStart.locationBuffer ⟨90, 0, 1000000000, none⟩) 90)
              (smoothedLng (pushBuffer trStart.locationBuffer ⟨90, 0, 1000000000, none⟩) 0)) ∧
      getCurrentDistance (resetTracker trStart) = 0 :=
  ⟨rfl, by rw [processLocation_ninety_eval],
   tracker_monotone.2.1 trStart 90 0 1000000000 none pStart rNinety rfl
     (by rw [processLocation_ninety_eval]),
   tracker_monotone.2.2 trStart⟩

/-! ### Route geometry claims (C7, C8) -/

lemma nearestFold_index (driver : LatLng) (route : List LatLng) (l : List ℕ)
    (best : NearestPoint) :
    ((l.foldl (fun b i =>
        let d : EReal := (getDistanceInMeters driver (route.getD i default) : ℝ)
        if d < b.distance then ⟨i, d⟩ else b) best).index = best.index) ∨
      ((l.foldl (fun b i =>
        let d : EReal := (getDistanceInMeters driver (route.getD i default) : ℝ)
        if d < b.distance then ⟨i, d⟩ else b) best).index ∈ l) := by
  induction l generalizing best with
  | nil => exact Or.inl rfl
  | cons i tl ih =>
      rw [List.foldl_cons]
      dsimp only
      by_cases hd : ((getDistanceInMeters driver (route.getD i default) : ℝ) : EReal)
          < best.distance
      · rw [if_pos hd]
        rcases ih ⟨i, ((getDistanceInMeters driver (route.getD i default) : ℝ) : EReal)⟩
            with h | h
        · exact Or.inr (by rw [h]; exact List.mem_cons_self i tl)
        · exact Or.inr (List.mem_cons_of_mem i h)
      · rw [if_neg hd]
        rcases ih best with h | h
        · exact Or.inl h
        · exact Or.inr (List.mem_cons_of_mem i h)

lemma scanNearest_index (driver : LatLng) (route : List LatLng) (lo hi : ℕ)
    (best : NearestPoint) :
    (scanNearest driver route lo hi best).index = best.index ∨
      (lo ≤ (scanNearest driver route lo hi best).index ∧
        (scanNearest driver route lo hi best).index < hi) := by
  unfold scanNearest
  rcases nearestFold_index driver route (List.range' lo (hi - lo)) best with h | h
  · exact Or.inl h
  · right
    rw [List.mem_range'] at h
    obtain ⟨i, hi2, hm⟩ := h
    omega

lemma findNearest_index_lt (driver : LatLng) (route : List LatLng) (hint : ℕ)
    (h : hint < route.length) :
    (findNearestPointOnRoute driver route hint 100).index < route.length := by
  unfold findNearestPointOnRoute
  rw [if_neg (by omega : ¬ route.length = 0)]
  dsimp only
  have hmin : min route.length (hint + 100) ≤ route.length := min_le_left _ _
  by_cases hedge : min route.length (hint + 100) - 1 ≤
      (scanNearest driver route (hint - 5) (min route.length (hint + 100))
        ⟨hint, ⊤⟩).index ∧ min route.length (hint + 100) < route.length
  · rw [if_pos hedge]
    rcases scanNearest_index driver route (min route.length (hint + 100)) route.length
        (scanNearest driver route (hint - 5) (min route.length (hint + 100))
          ⟨hint, ⊤⟩) with h2 | h2
    · rw [h2]
      rcases scanNearest_index driver route (hint - 5) (min route.length (hint + 100))
          ⟨hint, ⊤⟩ with h1 | h1
      · rw [h1]; exact h
      · omega
    · omega
  · rw [if_neg hedge]
    rcases scanNearest_index driver route (hint - 5) (min route.length (hint + 100))
        ⟨hint, ⊤⟩ with h1 | h1
    · rw [h1]; exact h
    · omega

/-- C7, counterexample: on a single-point (non-empty) route the split returns
an *empty* `travelled` slice, so `travelled.last` does not exist, let alone
equal `remaining.first`. -/
theorem split_single_point_counterexample :
    (splitRouteAtDriver ⟨1, 1⟩ [⟨0, 0⟩] 0).travelled = [] ∧
      (splitRouteAtDriver ⟨1, 1⟩ [⟨0, 0⟩] 0).remaining = [⟨0, 0⟩] ∧
      (splitRouteAtDriver ⟨1, 1⟩ [⟨0, 0⟩] 0).travelled.getLast? ≠
        (splitRouteAtDriver ⟨1, 1⟩ [⟨0, 0⟩] 0).remaining.head? := by
  refine ⟨rfl, rfl, ?_⟩
  intro hc
  rw [show (splitRouteAtDriver ⟨1, 1⟩ [⟨0, 0⟩] 0).travelled = [] from rfl,
    show (splitRouteAtDriver ⟨1, 1⟩ [⟨0, 0⟩] 0).remaining = [⟨0, 0⟩] from rfl] at hc
  cases hc

/-- C7, amended: for every route with at least *two* points and a hint index
inside the route, `splitRouteAtDriver` returns segments whose `travelled`
ends and whose `remaining` begins with one and the same shared point, and
that point is the (clamped) orthogonal projection of the driver position onto
the route segment following the nearest index — not the raw nearest
vertex. -/
theorem split_continuity (driver : LatLng) (route : List LatLng) (hint : ℕ)
    (h2 : 2 ≤ route.length) (hhint : hint < route.length) :
    (splitRouteAtDriver driver route hint).travelled.getLast?
        = some (getInterpolatedDriverPosition driver route
            (splitRouteAtDriver driver route hint).nearestIndex) ∧
      (splitRouteAtDriver driver route hint).remaining.head?
        = some (getInterpolatedDriverPosition driver route
            (splitRouteAtDriver driver route hint).nearestIndex) ∧
      (splitRouteAtDriver driver route hint).nearestIndex < route.length ∧
      getInterpolatedDriverPosition driver route
          (splitRouteAtDriver driver route hint).nearestIndex
        = projectPointOnSegment driver
            (route.getD (splitRouteAtDriver driver route hint).nearestIndex default)
            (route.getD (min (route.length - 1)
              ((splitRouteAtDriver driver route hint).nearestIndex + 1)) default) := by
  have hidx : (splitRouteAtDriver driver route hint).nearestIndex < route.length := by
    unfold splitRouteAtDriver
    rw [if_neg (by omega : ¬ route.length < 2)]
    exact findNearest_index_lt driver route hint hhint
  refine ⟨?_, ?_, hidx, ?_⟩
  · unfold splitRouteAtDriver
    rw [if_neg (by omega : ¬ route.length < 2)]
    dsimp only
    exact List.getLast?_concat _
  · unfold splitRouteAtDriver
    rw [if_neg (by omega : ¬ route.length < 2)]
    rfl
  · unfold getInterpolatedDriverPosition
    rw [if_neg (by omega : ¬ (route.length < 2 ∨ route.length ≤
        (splitRouteAtDriver driver route hint).nearestIndex))]

/-- C7, witness: the amended continuity theorem applied to the concrete
two-point route `[(0,0), (0,1)]` with hint 0. -/
theorem split_continuity_witness :
    2 ≤ ([⟨0, 0⟩, ⟨0, 1⟩] : List LatLng).length ∧ 0 < ([⟨0, 0⟩, ⟨0, 1⟩] : List LatLng).length ∧
      ((splitRouteAtDriver ⟨0, 0⟩ [⟨0, 0⟩, ⟨0, 1⟩] 0).travelled.getLast?
          = some (getInterpolatedDriverPosition ⟨0, 0⟩ [⟨0, 0⟩, ⟨0, 1⟩]
              (splitRouteAtDriver ⟨0, 0⟩ [⟨0, 0⟩, ⟨0, 1⟩] 0).nearestIndex) ∧
        (splitRouteAtDriver ⟨0, 0⟩ [⟨0, 0⟩, ⟨0, 1⟩] 0).remaining.head?
          = some (getInterpolatedDriverPosition ⟨0, 0⟩ [⟨0, 0⟩, ⟨0, 1⟩]
              (splitRouteAtDriver ⟨0, 0⟩ [⟨0, 0⟩, ⟨0, 1⟩] 0).nearestIndex) ∧
        (splitRouteAtDriver ⟨0, 0⟩ [⟨0, 0⟩, ⟨0, 1⟩] 0).nearestIndex
            < ([⟨0, 0⟩, ⟨0, 1⟩] : List LatLng).length ∧
        getInterpolatedDriverPosition ⟨0, 0⟩ [⟨0, 0⟩, ⟨0, 1⟩]
            (splitRouteAtDriver ⟨0, 0⟩ [⟨0, 0⟩, ⟨0, 1⟩] 0).nearestIndex
          = projectPointOnSegment ⟨0, 0⟩
              (([⟨0, 0⟩, ⟨0, 1⟩] : List LatLng).getD
                (splitRouteAtDriver ⟨0, 0⟩ [⟨0, 0⟩, ⟨0, 1⟩] 0).nearestIndex default)
              (([⟨0, 0⟩, ⟨0, 1⟩] : List LatLng).getD
                (min (([⟨0, 0⟩, ⟨0, 1⟩] : List LatLng).length - 1)
                  ((splitRouteAtDriver ⟨0, 0⟩ [⟨0, 0⟩, ⟨0, 1⟩] 0).nearestIndex + 1))
                default)) :=
  ⟨by norm_num, by norm_num,
   split_continuity ⟨0, 0⟩ [⟨0, 0⟩, ⟨0, 1⟩] 0 (by norm_num) (by norm_num)⟩

lemma scanNearest_two (pos p q : LatLng) :
    scanNearest pos [p, q] 0 2 ⟨0, ⊤⟩ =
      if getDistanceInMeters pos q < getDistanceInMeters pos p
        then ⟨1, (getDistanceInMeters pos q : ℝ)⟩
        else ⟨0, (getDistanceInMeters pos p : ℝ)⟩ := by
  unfold scanNearest
  rw [show List.range' 0 (2 - 0) = [0, 1] from rfl]
  rw [List.foldl_cons, List.foldl_cons, List.foldl_nil]
  dsimp only
  rw [show ([p, q].getD 0 default) = p from rfl,
    show ([p, q].getD 1 default) = q from rfl]
  rw [if_pos (EReal.coe_lt_top (getDistanceInMeters pos p))]
  dsimp only
  by_cases h : getDistanceInMeters pos q < getDistanceInMeters pos p
  · rw [if_pos (EReal.coe_lt_coe_iff.mpr h), if_pos h]
  · rw [if_neg (fun hc => h (EReal.coe_lt_coe_iff.mp hc)), if_neg h]

lemma findNearest_two (pos p q : LatLng) :
    findNearestPointOnRoute pos [p, q] 0 100 =
      if getDistanceInMeters pos q < getDistanceInMeters pos p
        then ⟨1, (getDistanceInMeters pos q : ℝ)⟩
        else ⟨0, (getDistanceInMeters pos p : ℝ)⟩ := by
  unfold findNearestPointOnRoute
  rw [if_neg (by norm_num : ¬ ([p, q] : List LatLng).length = 0)]
  dsimp only
  rw [show (0 - 5 : ℕ) = 0 from rfl,
    show min ([p, q] : List LatLng).length (0 + 100) = 2 from rfl]
  rw [scanNearest_two pos p q]
  by_cases h : getDistanceInMeters pos q < getDistanceInMeters pos p
  · rw [if_pos h]
    rw [if_neg (by norm_num : ¬ ((2 : ℕ) - 1 ≤ (⟨1, (getDistanceInMeters pos q : ℝ)⟩
        : NearestPoint).index ∧ 2 < ([p, q] : List LatLng).length))]
  · rw [if_neg h]
    rw [if_neg (by norm_num : ¬ ((2 : ℕ) - 1 ≤ (⟨0, (getDistanceInMeters pos p : ℝ)⟩
        : NearestPoint).index ∧ 2 < ([p, q] : List LatLng).length))]

/-- C8: `findNearestPointOnRoute` edge cases.  On an empty route it returns
`{index := 0, distance := Infinity}` for every query position, hint and
search radius; on a two-point route (with the default hint 0) it returns
index 0 or 1 — whichever endpoint is closer to the query, with ties going to
index 0 — together with that endpoint's distance. -/
theorem nearest_edge_cases :
    (∀ (pos : LatLng) (hint radius : ℕ),
        findNearestPointOnRoute pos [] hint radius = ⟨0, ⊤⟩) ∧
      ∀ pos p q : LatLng,
        (getDistanceInMeters pos p ≤ getDistanceInMeters pos q →
            findNearestPointOnRoute pos [p, q] 0 100
              = ⟨0, (getDistanceInMeters pos p : ℝ)⟩) ∧
          (getDistanceInMeters pos q < getDistanceInMeters pos p →
            findNearestPointOnRoute pos [p, q] 0 100
              = ⟨1, (getDistanceInMeters pos q : ℝ)⟩) := by
  refine ⟨fun pos hint radius => rfl, fun pos p q => ⟨?_, ?_⟩⟩
  · intro hle
    rw [findNearest_two, if_neg (not_lt.mpr hle)]
  · intro hlt
    rw [findNearest_two, if_pos hlt]

/-- C8, witness: concrete two-point routes around `(0°,0°)` and `(90°,0°)`
yielding index 0 (query at the first endpoint) and index 1 (query at the
second endpoint). -/
theorem nearest_edge_cases_witness :
    (getDistanceInMeters ⟨0, 0⟩ ⟨0, 0⟩ ≤ getDistanceInMeters ⟨0, 0⟩ ⟨90, 0⟩ ∧
        findNearestPointOnRoute ⟨0, 0⟩ [⟨0, 0⟩, ⟨90, 0⟩] 0 100
          = ⟨0, (getDistanceInMeters ⟨0, 0⟩ ⟨0, 0⟩ : ℝ)⟩) ∧
      (getDistanceInMeters ⟨0, 0⟩ ⟨0, 0⟩ < getDistanceInMeters ⟨0, 0⟩ ⟨90, 0⟩ ∧
        findNearestPointOnRoute ⟨0, 0⟩ [⟨90, 0⟩, ⟨0, 0⟩] 0 100
          = ⟨1, (getDistanceInMeters ⟨0, 0⟩ ⟨0, 0⟩ : ℝ)⟩) := by
  have hninety : getDistanceInMeters ⟨0, 0⟩ ⟨90, 0⟩ = 6371000 * (Real.pi / 2) := by
    rw [getDistanceInMeters_eq]
    exact calculateDistance_zero_ninety
  have hle : getDistanceInMeters ⟨0, 0⟩ ⟨0, 0⟩ ≤ getDistanceInMeters ⟨0, 0⟩ ⟨90, 0⟩ := by
    rw [getDistanceInMeters_self]
    exact getDistanceInMeters_nonneg _ _
  have hlt : getDistanceInMeters ⟨0, 0⟩ ⟨0, 0⟩ < getDistanceInMeters ⟨0, 0⟩ ⟨90, 0⟩ := by
    rw [getDistanceInMeters_self, hninety]
    positivity
  exact ⟨⟨hle, (nearest_edge_cases.2 ⟨0, 0⟩ ⟨0, 0⟩ ⟨90, 0⟩).1 hle⟩,
    ⟨hlt, (nearest_edge_cases.2 ⟨0, 0⟩ ⟨90, 0⟩ ⟨0, 0⟩).2 hlt⟩⟩

/-! ### Douglas-Peucker simplification claims (C9) -/

lemma maxPerpFold_index (route : List LatLng) (l : List ℕ) (best : ℝ × ℕ) :
    ((l.foldl (fun best i =>
        let d := perpendicularDistance (route.getD i default) (route.getD 0 default)
          (route.getD (route.length - 1) default)
        if best.1 < d then (d, i) else best) best).2 = best.2) ∨
      ((l.foldl (fun best i =>
        let d := perpendicularDistance (route.getD i default) (route.getD 0 default)
          (route.getD (route.length - 1) default)
        if best.1 < d then (d, i) else best) best).2 ∈ l) := by
  induction l generalizing best with
  | nil => exact Or.inl rfl
  | cons i tl ih =>
      rw [List.foldl_cons]
      dsimp only
      by_cases hd : best.1 < perpendicularDistance (route.getD i default)
          (route.getD 0 default) (route.getD (route.length - 1) default)
      · rw [if_pos hd]
        rcases ih (perpendicularDistance (route.getD i default) (route.getD 0 default)
            (route.getD (route.length - 1) default), i) with h | h
        · exact Or.inr (by rw [h]; exact List.mem_cons_self i tl)
        · exact Or.inr (List.mem_cons_of_mem i h)
      · rw [if_neg hd]
        rcases ih best with h | h
        · exact Or.inl h
        · exact Or.inr (List.mem_cons_of_mem i h)

lemma maxPerpendicular_index (route : List LatLng) :
    (maxPerpendicular route).2 = 0 ∨
      (1 ≤ (maxPerpendicular route).2 ∧ (maxPerpendicular route).2 ≤ route.length - 2) := by
  unfold maxPerpendicular
  rcases maxPerpFold_index route (List.range' 1 (route.length - 2)) (0, 0) with h | h
  · exact Or.inl h
  · right
    rw [List.mem_range'] at h
    obtain ⟨i, hlt, hm⟩ := h
    omega

lemma simplifyRouteAux_short (fuel : ℕ) (route : List LatLng) (tol : ℝ)
    (h : route.length ≤ 2) : simplifyRouteAux fuel route tol = route := by
  cases fuel with
  | zero => rfl
  | succ fuel =>
      unfold simplifyRouteAux
      rw [if_pos h]

lemma simplifyRouteAux_length (fuel : ℕ) (route : List LatLng) (tol : ℝ)
    (h : 2 ≤ route.length) : 2 ≤ (simplifyRouteAux fuel route tol).length := by
  induction fuel generalizing route with
  | zero => exact h
  | succ fuel ih =>
      unfold simplifyRouteAux
      by_cases hs : route.length ≤ 2
      · rw [if_pos hs]; exact h
      · rw [if_neg hs]
        dsimp only
        by_cases ht : tol < (maxPerpendicular route).1
        · rw [if_pos ht]
          rw [List.length_append]
          have hdrop : 2 ≤ (route.drop (maxPerpendicular route).2).length := by
            rw [List.length_drop]
            rcases maxPerpendicular_index route with h0 | h0 <;> omega
          have h2 := ih (route.drop (maxPerpendicular route).2) hdrop
          omega
        · rw [if_neg ht]
          norm_num

lemma simplifyRouteAux_head (fuel : ℕ) (route : List LatLng) (tol : ℝ)
    (h : 2 ≤ route.length) :
    (simplifyRouteAux fuel route tol).head? = route.head? := by
  induction fuel generalizing route with
  | zero => rfl
  | succ fuel ih =>
      unfold simplifyRouteAux
      by_cases hs : route.length ≤ 2
      · rw [if_pos hs]
      · rw [if_neg hs]
        dsimp only
        by_cases ht : tol < (maxPerpendicular route).1
        · rw [if_pos ht]
          rw [List.head?_append]
          obtain ⟨a, l, rfl⟩ : ∃ a l, route = a :: l := by
            cases route with
            | nil => simp at h
            | cons a l => exact ⟨a, l, rfl⟩
          by_cases hm : (maxPerpendicular (a :: l)).2 = 0
          · rw [hm]
            have htake : ((a :: l).take (0 + 1)).length ≤ 2 := by
              rw [List.length_take]; omega
            rw [simplifyRouteAux_short fuel _ tol htake]
            rw [show ((a :: l).take (0 + 1)).dropLast = [] from rfl]
            rw [show (a :: l).drop 0 = a :: l from rfl]
            rw [ih (a :: l) h]
            rfl
          · have hmb := maxPerpendicular_index (a :: l)
            have htl : 2 ≤ ((a :: l).take ((maxPerpendicular (a :: l)).2 + 1)).length := by
              rw [List.length_take]
              rcases hmb with h0 | h0 <;> omega
            have hlen2 := simplifyRouteAux_length fuel
              ((a :: l).take ((maxPerpendicular (a :: l)).2 + 1)) tol htl
            rw [List.head?_dropLast, if_pos (by omega :
              1 < (simplifyRouteAux fuel ((a :: l).take ((maxPerpendicular (a :: l)).2 + 1))
                tol).length)]
            rw [ih _ htl]
            rw [List.head?_take, if_neg (by omega : ¬ (maxPerpendicular (a :: l)).2 + 1 = 0)]
            rfl
        · rw [if_neg ht]
          cases route with
          | nil => simp at h
          | cons a l => rfl

lemma simplifyRouteAux_last (fuel : ℕ) (route : List LatLng) (tol : ℝ)
    (h : 2 ≤ route.length) :
    (simplifyRouteAux fuel route tol).getLast? = route.getLast? := by
  induction fuel generalizing route with
  | zero => rfl
  | succ fuel ih =>
      unfold simplifyRouteAux
      by_cases hs : route.length ≤ 2
      · rw [if_pos hs]
      · rw [if_neg hs]
        dsimp only
        by_cases ht : tol < (maxPerpendicular route).1
        · rw [if_pos ht]
          rw [List.getLast?_append]
          have hmlt : (maxPerpendicular route).2 < route.length := by
            rcases maxPerpendicular_index route with h0 | h0 <;> omega
          have hdrop : 2 ≤ (route.drop (maxPerpendicular route).2).length := by
            rw [List.length_drop]
            rcases maxPerpendicular_index route with h0 | h0 <;> omega
          rw [ih _ hdrop]
          rw [List.getLast?_drop, if_neg (by omega : ¬ route.length ≤ (maxPerpendicular route).2)]
          obtain ⟨x, hx⟩ : ∃ x, route.getLast? = some x := by
            cases route with
            | nil => simp at h
            | cons a l => exact ⟨(a :: l).getLast (by simp), List.getLast?_eq_getLast _ _⟩
          rw [hx]
          rfl
        · rw [if_neg ht]
          rw [show ([route.getD 0 default, route.getD (route.length - 1) default]).getLast?
              = some (route.getD (route.length - 1) default) from rfl]
          rw [List.getLast?_eq_getElem?]
          rw [List.getD_eq_getElem?_getD]
          rw [List.getElem?_eq_getElem (by omega : route.length - 1 < route.length)]
          rfl

/-- A straight line of 100 collinear points along the equator, 0.001° of
longitude apart. -/
noncomputable def line100 : List LatLng :=
  (List.range 100).map (fun i : ℕ => ⟨0, (i : ℝ) * 0.001⟩)

lemma line100_length : line100.length = 100 := by
  unfold line100
  rw [List.length_map, List.length_range]

lemma line100_getD {i : ℕ} (h : i < 100) :
    line100.getD i default = ⟨0, (i : ℝ) * 0.001⟩ := by
  unfold line100
  rw [List.getD_eq_getElem?_getD, List.getElem?_map, List.getElem?_range h]
  rfl

/-- The perpendicular distance of a point on a horizontal line from that
line is zero: the unclamped projection is the point itself. -/
lemma pd_collinear (x a b : ℝ) (hab : b - a ≠ 0) :
    perpendicularDistance ⟨0, x⟩ ⟨0, a⟩ ⟨0, b⟩ = 0 := by
  unfold perpendicularDistance
  dsimp only
  rw [if_neg (fun hc => hab hc.1)]
  have h1 : (0 : ℝ) + ((x - a) * (b - a) + (0 - 0) * (0 - 0)) /
      ((b - a) * (b - a) + (0 - 0) * (0 - 0)) * (0 - 0) = 0 := by ring
  have h2 : a + ((x - a) * (b - a) + (0 - 0) * (0 - 0)) /
      ((b - a) * (b - a) + (0 - 0) * (0 - 0)) * (b - a) = x := by
    field_simp
    ring
  rw [h1, h2]
  exact getDistanceInMeters_self _

lemma maxPerpFold_zero (route : List LatLng) (l : List ℕ)
    (hall : ∀ i ∈ l, perpendicularDistance (route.getD i default)
      (route.getD 0 default) (route.getD (route.length - 1) default) = 0) :
    (l.foldl (fun best i =>
        let d := perpendicularDistance (route.getD i default) (route.getD 0 default)
          (route.getD (route.length - 1) default)
        if best.1 < d then (d, i) else best) ((0 : ℝ), (0 : ℕ))) = (0, 0) := by
  induction l with
  | nil => rfl
  | cons i tl ih =>
      rw [List.foldl_cons]
      dsimp only
      rw [hall i (List.mem_cons_self i tl), if_neg (lt_irrefl 0)]
      exact ih (fun j hj => hall j (List.mem_cons_of_mem i hj))

lemma maxPerpendicular_line100 : maxPerpendicular line100 = (0, 0) := by
  unfold maxPerpendicular
  apply maxPerpFold_zero
  intro i hi
  rw [List.mem_range'] at hi
  obtain ⟨j, hj, rfl⟩ := hi
  rw [line100_length] at hj ⊢
  rw [line100_getD (by omega), line100_getD (by omega : (0 : ℕ) < 100),
    line100_getD (by omega : 99 < 100)]
  apply pd_collinear
  push_cast
  norm_num

lemma simplify_line100 :
    simplifyRoute line100 0.00005 = [⟨0, 0⟩, ⟨0, 0.099⟩] := by
  unfold simplifyRoute
  rw [line100_length]
  show simplifyRouteAux (99 + 1) line100 0.00005 = _
  unfold simplifyRouteAux
  rw [if_neg (by rw [line100_length]; norm_num : ¬ line100.length ≤ 2)]
  dsimp only
  rw [maxPerpendicular_line100]
  rw [if_neg (by norm_num : ¬ (0.00005 : ℝ) < ((0 : ℝ), (0 : ℕ)).1)]
  rw [line100_length]
  rw [line100_getD (by norm_num), line100_getD (by norm_num : 99 < 100)]
  norm_num

/-- C9: Douglas-Peucker simplification preserves endpoints — for every route
with at least two points, `simplifyRoute` returns a list with the same first
and last element; and applied to a straight line of 100 collinear points it
returns exactly the two endpoints. -/
theorem simplify_endpoints :
    (∀ (route : List LatLng) (tol : ℝ), 2 ≤ route.length →
        (simplifyRoute route tol).head? = route.head? ∧
          (simplifyRoute route tol).getLast? = route.getLast?) ∧
      (line100.length = 100 ∧ line100.head? = some ⟨0, 0⟩ ∧
        line100.getLast? = some ⟨0, 0.099⟩ ∧
        simplifyRoute line100 0.00005 = [⟨0, 0⟩, ⟨0, 0.099⟩]) := by
  refine ⟨fun route tol h => ⟨simplifyRouteAux_head _ _ _ h, simplifyRouteAux_last _ _ _ h⟩,
    line100_length, ?_, ?_, simplify_line100⟩
  · unfold line100
    rw [show List.range 100 = 0 :: List.range' 1 99 from by
      rw [List.range_eq_range']; rw [show (100 : ℕ) = 1 + 99 from rfl]; rfl]
    show some (⟨0, ((0 : ℕ) : ℝ) * 0.001⟩ : LatLng) = some ⟨0, 0⟩
    norm_num
  · rw [List.getLast?_eq_getElem?]
    rw [line100_length]
    unfold line100
    rw [List.getElem?_map, List.getElem?_range (by norm_num : 99 < 100)]
    show some (⟨0, ((99 : ℕ) : ℝ) * 0.001⟩ : LatLng) = some ⟨0, 0.099⟩
    norm_num

/-- C9, witness: the endpoint-preservation part applied to the concrete
collinear line. -/
theorem simplify_endpoints_witness :
    2 ≤ line100.length ∧
      ((simplifyRoute line100 0.00005).head? = line100.head? ∧
        (simplifyRoute line100 0.00005).getLast? = line100.getLast?) :=
  ⟨by rw [line100_length]; norm_num,
   simplify_endpoints.1 line100 0.00005 (by rw [line100_length]; norm_num)⟩

/-- C3, witness: after 7 consecutive failed reconnects the configuration
still schedules another automatic attempt. -/
theorem reconnect_unbounded_witness : willAutoRetry socketOptions 7 = true :=
  reconnect_unbounded 7

/-- C4, witness: the amended payload/billing theorem at a concrete
completion of `demoRide`. -/
theorem completion_backend_only_witness :
    (completionHttpBody demoRide "drv-1" 12.99 77.61).map Prod.fst =
        ["rideId", "driverId", "completedLatitude", "completedLongitude"] ∧
      (driverCompletedRidePayload demoRide "drv-1" 12.99 77.61 "2024-01-01").map Prod.fst =
        ["rideId", "driverId", "actualDrop", "timestamp"] ∧
      (∀ k, k ∈ ["distance", "fare", "startLatitude", "startLongitude",
          "locationHistory"] →
        k ∉ (completionHttpBody demoRide "drv-1" 12.99 77.61).map Prod.fst ∧
          k ∉ (driverCompletedRidePayload demoRide "drv-1" 12.99 77.61
            "2024-01-01").map Prod.fst) ∧
      (billDataOf ⟨4.2, 130, 32, none, none⟩).distanceKm = (4.2 : ℝ) ∧
      (billDataOf ⟨4.2, 130, 32, none, none⟩).charge = (130 : ℝ) ∧
      (billDataOf ⟨4.2, 130, 32, none, none⟩).baseFare = (130 : ℝ) ∧
      (billDataOf ⟨4.2, 130, 32, none, none⟩).pricePerKm = (32 : ℝ) :=
  completion_backend_only demoRide "drv-1" 12.99 77.61 "2024-01-01" ⟨4.2, 130, 32, none, none⟩

end IFitClub










